import Mathlib

/-!
Spotter frontend: duty-log grid, stop placement and compliance display.

A shallow embedding of the pure parts of the React components
`LogSheet.js`, `MapView.js` and `TripDetails.js`, followed by the
properties proved about them.

Conventions of the embedding:

* a JavaScript value that may be `undefined`/`null` is an `Option`;
* `x || d` on such a value is `jsOr`/`Option.getD` (the falsy values of the
  carried type fall back to `d` as well);
* numbers read from the API are exact rationals; the one place where the
  source divides by a possibly-zero number keeps the IEEE outcomes
  `Infinity`, `-Infinity` and `NaN` (type `JsNum`);
* where rounding decides a property, the rest-stop computation is also given
  in IEEE binary64 arithmetic (namespace `F64`, `MapView.restStopsInDoubles`);
* a rendered element is a record of the props the source computes for it.
-/

namespace Spotter

/-! ## JavaScript helpers -/

/-- `String.prototype.padStart(n, c)` with a one-character pad string. -/
def padStart (s : String) (n : Nat) (c : Char) : String :=
  String.mk (List.replicate (n - s.length) c) ++ s

/-- `v || d` for a string-or-null value: `null`, `undefined` and `""` are falsy. -/
def jsOr (v : Option String) (d : String) : String :=
  match v with
  | some s => if s = "" then d else s
  | none => d

/-- Interpolation of a possibly-undefined string in a template literal. -/
def showUndef (v : Option String) : String :=
  match v with
  | some s => s
  | none => "undefined"

/-! ## LogSheet.js -/

namespace LogSheet

/-- The `log_sheet_data` object of a daily log; `grid` entries may be null. -/
structure LogSheetData where
  grid : Option (List (Option String))
  deriving DecidableEq, Repr

/-- The fields of the `dailyLog` prop that the grid, the violations section
and the compliance badge read. -/
structure DailyLog where
  log_sheet_data : Option LogSheetData
  violations : Option (List String)
  hos_compliant : Bool
  deriving DecidableEq, Repr

/-- The `statusColors` table (own keys of the object literal). -/
def statusColors (status : String) : Option String :=
  if status = "off_duty" then some "#28a745"
  else if status = "sleeper_berth" then some "#6f42c1"
  else if status = "driving" then some "#dc3545"
  else if status = "on_duty_not_driving" then some "#ffc107"
  else none

/-- The `statusLabels` table (own keys of the object literal). -/
def statusLabels (status : String) : Option String :=
  if status = "off_duty" then some "Off Duty"
  else if status = "sleeper_berth" then some "Sleeper Berth"
  else if status = "driving" then some "Driving"
  else if status = "on_duty_not_driving" then some "On Duty (Not Driving)"
  else none

/-- `formatTime(slot)`: hour `floor(slot / 4)`, minute `(slot % 4) * 15`,
both padded to two characters. -/
def formatTime (slot : Nat) : String :=
  let hour := slot / 4
  let minute := (slot % 4) * 15
  padStart (toString hour) 2 '0' ++ ":" ++ padStart (toString minute) 2 '0'

/-- One `div.time-slot` element: its React key, the status it was computed
from, and the two props derived from the status. -/
structure TimeSlot where
  key : Nat
  status : String
  backgroundColor : Option String
  title : String
  deriving DecidableEq, Repr

/-- One `div.hour-block` element: key, two-digit hour label, its slots. -/
structure HourBlock where
  key : Nat
  label : String
  slots : List TimeSlot
  deriving DecidableEq, Repr

/-- `dailyLog.log_sheet_data?.grid || []`. -/
def gridOf (dailyLog : DailyLog) : List (Option String) :=
  match dailyLog.log_sheet_data with
  | some d => d.grid.getD []
  | none => []

/-- Body of the inner loop of `renderLogGrid` for one `(hour, quarter)`. -/
def renderSlot (grid : List (Option String)) (hour quarter : Nat) : TimeSlot :=
  let slotIndex := hour * 4 + quarter
  let status := jsOr (grid[slotIndex]?).join "off_duty"
  { key := slotIndex
    status := status
    backgroundColor := statusColors status
    title := formatTime slotIndex ++ " - " ++ showUndef (statusLabels status) }

/-- Body of the outer loop of `renderLogGrid` for one hour. -/
def renderHour (grid : List (Option String)) (hour : Nat) : HourBlock :=
  { key := hour
    label := padStart (toString hour) 2 '0'
    slots := (List.range 4).map (renderSlot grid hour) }

/-- `renderLogGrid()`: the hour blocks pushed for `hour = 0 .. 23`. -/
def renderLogGrid (dailyLog : DailyLog) : List HourBlock :=
  let grid := gridOf dailyLog
  (List.range 24).map (renderHour grid)

/-- The slots of the rendered grid in document order. -/
def displayedSlots (dailyLog : DailyLog) : List TimeSlot :=
  (renderLogGrid dailyLog).flatMap HourBlock.slots

/-- The violations section: present iff
`dailyLog.violations && dailyLog.violations.length > 0`; its items are the
violation texts. -/
def violationsSection (dailyLog : DailyLog) : Option (List String) :=
  match dailyLog.violations with
  | some v => if v.length > 0 then some v else none
  | none => none

/-- Text of the compliance badge. -/
def complianceBadge (dailyLog : DailyLog) : String :=
  if dailyLog.hos_compliant then "✅ HOS Compliant" else "❌ HOS Violations"

/-- Class suffix of the compliance badge. -/
def complianceClass (dailyLog : DailyLog) : String :=
  if dailyLog.hos_compliant then "compliant" else "non-compliant"

/-- What `LogSheet` renders, reduced to the parts modelled here. -/
structure Sheet where
  grid : List HourBlock
  violations : Option (List String)
  badgeClass : String
  badge : String
  deriving DecidableEq, Repr

end LogSheet

/-- The `LogSheet` component: `null` when the `dailyLog` prop is missing. -/
def LogSheet (dailyLog : Option LogSheet.DailyLog) : Option LogSheet.Sheet :=
  match dailyLog with
  | none => none
  | some dl =>
    some { grid := LogSheet.renderLogGrid dl
           violations := LogSheet.violationsSection dl
           badgeClass := LogSheet.complianceClass dl
           badge := LogSheet.complianceBadge dl }

/-! ## Numbers that may be the result of a division by zero -/

/-- A JavaScript number as far as `MapView` needs it: an exact finite value,
or one of the three non-finite outcomes of a division. -/
inductive JsNum where
  | fin (q : ℚ)
  | posInf
  | negInf
  | nan
  deriving DecidableEq

namespace JsNum

/-- `a / b` for finite `a`, `b`; the divisor `0` is the positive zero that
`x || 0` produces. -/
def div (a b : ℚ) : JsNum :=
  if b = 0 then
    if 0 < a then posInf else if a < 0 then negInf else nan
  else fin (a / b)

/-- `x > c` for a finite `c`. -/
def gt (x : JsNum) (c : ℚ) : Bool :=
  match x with
  | fin q => decide (c < q)
  | posInf => true
  | negInf => false
  | nan => false

/-- `x < c` for a finite `c`. -/
def lt (x : JsNum) (c : ℚ) : Bool :=
  match x with
  | fin q => decide (q < c)
  | posInf => false
  | negInf => true
  | nan => false

/-- Sign of a number, `0` for zero and for `NaN`. -/
def sgn (x : JsNum) : Int :=
  match x with
  | fin q => if 0 < q then 1 else if q < 0 then -1 else 0
  | posInf => 1
  | negInf => -1
  | nan => 0

/-- The infinity of a given sign; `NaN` for sign `0` (`Infinity * 0`). -/
def ofSgn (s : Int) : JsNum :=
  if 0 < s then posInf else if s < 0 then negInf else nan

/-- `x * y`. -/
def mul (x y : JsNum) : JsNum :=
  match x, y with
  | fin a, fin b => fin (a * b)
  | nan, _ => nan
  | _, nan => nan
  | x, y => ofSgn (x.sgn * y.sgn)

/-- `x + y`. -/
def add (x y : JsNum) : JsNum :=
  match x, y with
  | fin a, fin b => fin (a + b)
  | nan, _ => nan
  | _, nan => nan
  | posInf, negInf => nan
  | negInf, posInf => nan
  | posInf, _ => posInf
  | negInf, _ => negInf
  | _, posInf => posInf
  | _, negInf => negInf

end JsNum

/-! ## MapView.js -/

namespace MapView

/-- A `[lat, lng]` pair as delivered by the API. -/
abbrev LatLng := ℚ × ℚ

/-- The `coordinates` prop. -/
structure Coordinates where
  current : Option LatLng
  pickup : Option LatLng
  dropoff : Option LatLng
  deriving DecidableEq

/-- The fields of the `trip` prop read by the fallback branch. -/
structure Trip where
  pickup_coordinates : Option LatLng
  pickup_location : Option String
  dropoff_coordinates : Option LatLng
  dropoff_location : Option String
  current_coordinates : Option LatLng
  current_location : Option String
  deriving DecidableEq

/-- One entry of `routeData.hos_plan.daily_plans`. -/
structure DayPlan where
  distance_miles : Option ℚ
  fuel_stops : Option Nat
  deriving DecidableEq

/-- The object `routeData.combined_route`. -/
structure CombinedRoute where
  distance_miles : Option ℚ
  deriving DecidableEq

/-- The object `routeData.hos_plan`. -/
structure HosPlan where
  daily_plans : Option (List DayPlan)
  deriving DecidableEq

/-- The fields of the `routeData` prop read by the stop placement. -/
structure RouteData where
  combined_route : Option CombinedRoute
  hos_plan : Option HosPlan
  deriving DecidableEq

/-- An entry of the `markers` array. -/
structure Marker where
  position : JsNum × JsNum
  popup : String
  color : String
  icon : String
  deriving DecidableEq

/-- A coordinate pair of the props used as a marker position. -/
def pos (p : LatLng) : JsNum × JsNum :=
  (JsNum.fin p.1, JsNum.fin p.2)

/-- The markers pushed by lines 26-88: from `coordinates` when present,
otherwise from the `trip` fallback. -/
def locationMarkers (trip : Option Trip) (coordinates : Option Coordinates) : List Marker :=
  match coordinates with
  | some c =>
    (match c.current with
      | some p => [{ position := pos p, popup := "🚛 Current Location",
                     color := "blue", icon := "truck" }]
      | none => [])
    ++ (match c.pickup with
      | some p => [{ position := pos p, popup := "📦 Pickup Location",
                     color := "green", icon := "pickup" }]
      | none => [])
    ++ (match c.dropoff with
      | some p => [{ position := pos p, popup := "🎯 Dropoff Location",
                     color := "red", icon := "dropoff" }]
      | none => [])
  | none =>
    match trip with
    | some t =>
      (match t.pickup_coordinates with
        | some p => [{ position := pos p, popup := "Pickup: " ++ showUndef t.pickup_location,
                       color := "green", icon := "pickup" }]
        | none => [])
      ++ (match t.dropoff_coordinates with
        | some p => [{ position := pos p, popup := "Dropoff: " ++ showUndef t.dropoff_location,
                       color := "red", icon := "dropoff" }]
        | none => [])
      ++ (match t.current_coordinates with
        | some p => [{ position := pos p, popup := "Current: " ++ showUndef t.current_location,
                       color := "blue", icon := "truck" }]
        | none => [])
    | none => []

/-- `from + (to - from) * progress`, the expression of lines 104-105 and
121-122 for one coordinate, over exact rationals (no rounding of the
difference, the product or the sum; the rounded computation is
`restStopPositionInDoubles`). -/
def interpolate (a b : ℚ) (progress : JsNum) : JsNum :=
  JsNum.add (JsNum.fin a) (JsNum.mul (JsNum.fin (b - a)) progress)

/-- The rest-stop marker object of lines 107-112. -/
def restMarker (pickup dropoff : LatLng) (progress : JsNum) (dayIndex : Nat) : Marker :=
  { position := (interpolate pickup.1 dropoff.1 progress, interpolate pickup.2 dropoff.2 progress)
    popup := "🛏️ Mandatory Rest Stop - Day " ++ toString (dayIndex + 1)
      ++ "\n10-hour off-duty period"
    color := "purple"
    icon := "rest" }

/-- The fuel-stop marker object of lines 124-129. -/
def fuelMarker (pickup dropoff : LatLng) (fuelProgress : JsNum) (i dayIndex : Nat) : Marker :=
  { position := (interpolate pickup.1 dropoff.1 fuelProgress,
      interpolate pickup.2 dropoff.2 fuelProgress)
    popup := "⛽ Fuel Stop " ++ toString (i + 1) ++ " - Day " ++ toString (dayIndex + 1)
      ++ "\n30-minute refueling"
    color := "orange"
    icon := "fuel" }

/-- Lines 101-114: the rest stop considered at the end of day `dayIndex` of
`n = hosPlans.length` days. The fraction `progress` is the exact quotient; the
same lines in binary64 arithmetic are `restStopPositionInDoubles`. -/
def restStop (c : Coordinates) (totalDistance : ℚ) (n dayIndex : Nat)
    (accumulatedDistance dayDistance : ℚ) (markers : List Marker) : List Marker :=
  if (dayIndex : Int) < (n : Int) - 1 then
    let progress := JsNum.div (accumulatedDistance + dayDistance) totalDistance
    match c.pickup, c.dropoff with
    | some pickup, some dropoff =>
      if progress.gt 0 && progress.lt 1 then
        markers ++ [restMarker pickup dropoff progress dayIndex]
      else markers
    | _, _ => markers
  else markers

/-- Lines 119-130: body of the fuel-stop loop for stop number `i`. -/
def fuelStop (c : Coordinates) (totalDistance : ℚ) (dayIndex : Nat)
    (accumulatedDistance dayDistance : ℚ) (fuelStops : Nat) (markers : List Marker) (i : Nat) :
    List Marker :=
  let fuelProgress :=
    JsNum.div (accumulatedDistance + dayDistance * ((i : ℚ) + 1) / ((fuelStops : ℚ) + 1))
      totalDistance
  match c.pickup, c.dropoff with
  | some pickup, some dropoff =>
    if fuelProgress.gt 0 && fuelProgress.lt 1 then
      markers ++ [fuelMarker pickup dropoff fuelProgress i dayIndex]
    else markers
  | _, _ => markers

/-- Lines 98-133: the callback of `hosPlans.forEach`, acting on the pair
`(accumulatedDistance, markers)`. -/
def dayStep (c : Coordinates) (totalDistance : ℚ) (n : Nat) (dayPlan : DayPlan) (dayIndex : Nat)
    (st : ℚ × List Marker) : ℚ × List Marker :=
  let dayDistance := dayPlan.distance_miles.getD 0
  let markers1 := restStop c totalDistance n dayIndex st.1 dayDistance st.2
  let fuelStops := dayPlan.fuel_stops.getD 0
  let markers2 := (List.range fuelStops).foldl
    (fuelStop c totalDistance dayIndex st.1 dayDistance fuelStops) markers1
  (st.1 + dayDistance, markers2)

/-- `hosPlans.forEach(...)` from index `dayIndex` on. -/
def forEachDay (c : Coordinates) (totalDistance : ℚ) (n : Nat) :
    List DayPlan → Nat → ℚ × List Marker → ℚ × List Marker
  | [], _, st => st
  | dayPlan :: rest, dayIndex, st =>
    forEachDay c totalDistance n rest (dayIndex + 1) (dayStep c totalDistance n dayPlan dayIndex st)

/-- `routeData.combined_route?.distance_miles || 0`. -/
def totalDistanceOf (routeData : RouteData) : ℚ :=
  (routeData.combined_route.bind CombinedRoute.distance_miles).getD 0

/-- `routeData.hos_plan?.daily_plans || []`. -/
def hosPlansOf (routeData : RouteData) : List DayPlan :=
  (routeData.hos_plan.bind HosPlan.daily_plans).getD []

/-- The `markers` array at the point where `MapView` renders it (lines 21-135). -/
def markers (trip : Option Trip) (coordinates : Option Coordinates)
    (routeData : Option RouteData) : List Marker :=
  let markers := locationMarkers trip coordinates
  match routeData, coordinates with
  | some rd, some c =>
    let totalDistance := totalDistanceOf rd
    let hosPlans := hosPlansOf rd
    (forEachDay c totalDistance hosPlans.length hosPlans 0 (0, markers)).2
  | _, _ => markers

/-- The daily distance the loop adds up: `dayPlan.distance_miles || 0`. -/
def dayDistanceOf (dayPlan : DayPlan) : ℚ :=
  dayPlan.distance_miles.getD 0

/-- Specification side of the rest-stop placement: the rest stop expected at
the end of day `dayIndex` when the cumulative distance up to and including
that day is `cumulative`: it exists when pickup and dropoff are known and the
fraction `cumulative / totalDistance` lies strictly between 0 and 1. -/
def restStopSpec (c : Coordinates) (totalDistance : ℚ) (dayIndex : Nat) (cumulative : ℚ) :
    Option Marker :=
  match c.pickup, c.dropoff with
  | some pickup, some dropoff =>
    if (JsNum.div cumulative totalDistance).gt 0 && (JsNum.div cumulative totalDistance).lt 1 then
      some (restMarker pickup dropoff (JsNum.div cumulative totalDistance) dayIndex)
    else none
  | _, _ => none

/-- A marker is a rest-stop marker when its icon is `rest`. -/
def isRest (m : Marker) : Bool :=
  m.icon = "rest"

/-- A marker is a stop marker when its icon is `rest` or `fuel`. -/
def isStop (m : Marker) : Bool :=
  m.icon = "rest" || m.icon = "fuel"

end MapView

/-! ## TripDetails.js -/

namespace TripDetails

/-- The fields of the fetched trip read by the compliance summary. -/
structure Trip where
  current_cycle_used : ℚ
  deriving DecidableEq

/-- The fields of a fetched log read by the compliance summary. -/
structure Log where
  driving_hours : Option ℚ
  on_duty_hours : Option ℚ
  deriving DecidableEq

/-- The component state (`useState` cells). -/
structure State where
  trip : Option Trip
  logs : List Log
  loading : Bool
  error : String
  deriving DecidableEq

/-- The compliance warnings of lines 121-140, with the numbers they print. -/
inductive Warning where
  | drivingLimitExceeded (totalDrivingHours : ℚ)
  | onDutyLimitExceeded (totalOnDutyHours : ℚ)
  | cycleLimitExceeded (current_cycle_used : ℚ)
  | lessThanTenRemaining
  deriving DecidableEq

/-- What the component returns. -/
inductive View where
  | loading
  | error (message : String)
  | notFound
  | details (trip : Trip) (cycleLimitRemaining : ℚ) (warnings : List Warning)
  deriving DecidableEq

/-- `logs.reduce((sum, log) => sum + (log.driving_hours || 0), 0)`. -/
def totalDrivingHours (logs : List Log) : ℚ :=
  logs.foldl (fun sum log => sum + log.driving_hours.getD 0) 0

/-- `logs.reduce((sum, log) => sum + (log.on_duty_hours || 0), 0)`. -/
def totalOnDutyHours (logs : List Log) : ℚ :=
  logs.foldl (fun sum log => sum + log.on_duty_hours.getD 0) 0

/-- `dailyDrivingLimit`. -/
def dailyDrivingLimit : ℚ := 11

/-- `dailyOnDutyLimit`. -/
def dailyOnDutyLimit : ℚ := 14

/-- The warnings block, lines 121-140, in document order. -/
def warnings (trip : Trip) (logs : List Log) : List Warning :=
  let cycleLimitRemaining := 70 - trip.current_cycle_used
  (if totalDrivingHours logs > dailyDrivingLimit then
      [Warning.drivingLimitExceeded (totalDrivingHours logs)] else [])
  ++ (if totalOnDutyHours logs > dailyOnDutyLimit then
      [Warning.onDutyLimitExceeded (totalOnDutyHours logs)] else [])
  ++ (if trip.current_cycle_used > 70 then
      [Warning.cycleLimitExceeded trip.current_cycle_used] else [])
  ++ (if cycleLimitRemaining < 10 ∧ cycleLimitRemaining > 0 then
      [Warning.lessThanTenRemaining] else [])

/-- The render function of the component for a given state. -/
def render (st : State) : View :=
  if st.loading then View.loading
  else if st.error ≠ "" then View.error st.error
  else
    match st.trip with
    | none => View.notFound
    | some trip => View.details trip (70 - trip.current_cycle_used) (warnings trip st.logs)

end TripDetails

namespace LogSheet

/-- Inverse direction of the slot index computed in `renderLogGrid`
(`slotIndex = hour * 4 + quarter`, with `quarter = minute / 15`). -/
def timeToSlot (hour minute : Nat) : Nat :=
  hour * 4 + minute / 15

/-- The `(hour, minute)` pair that `formatTime` prints. -/
def slotToTime (slot : Nat) : Nat × Nat :=
  (slot / 4, (slot % 4) * 15)

end LogSheet

/-! ## MapView.js: the fuel stops, specification side -/

namespace MapView

/-- A marker is a fuel-stop marker when its icon is `fuel`. -/
def isFuel (m : Marker) : Bool :=
  m.icon = "fuel"

/-- `dayPlan.fuel_stops || 0`. -/
def fuelStopsOf (dayPlan : DayPlan) : Nat :=
  dayPlan.fuel_stops.getD 0

/-- The cumulative-distance fraction of fuel stop `i` of a day with `fuelStops`
fuel stops, distance `dayDistance` and preceding cumulative distance
`accumulatedDistance`: `(A + d * (i + 1) / (n + 1)) / T`. -/
def fuelFraction (accumulatedDistance dayDistance : ℚ) (fuelStops i : Nat) (totalDistance : ℚ) :
    JsNum :=
  JsNum.div (accumulatedDistance + dayDistance * ((i : ℚ) + 1) / ((fuelStops : ℚ) + 1))
    totalDistance

/-- Specification side of the fuel-stop placement: the marker expected for
fuel stop `i` of day `dayIndex`; it exists when pickup and dropoff are known
and the fraction lies strictly between 0 and 1. -/
def fuelStopSpec (c : Coordinates) (totalDistance : ℚ) (dayIndex : Nat)
    (accumulatedDistance dayDistance : ℚ) (fuelStops i : Nat) : Option Marker :=
  match c.pickup, c.dropoff with
  | some pickup, some dropoff =>
    if (fuelFraction accumulatedDistance dayDistance fuelStops i totalDistance).gt 0 &&
        (fuelFraction accumulatedDistance dayDistance fuelStops i totalDistance).lt 1 then
      some (fuelMarker pickup dropoff
        (fuelFraction accumulatedDistance dayDistance fuelStops i totalDistance) i dayIndex)
    else none
  | _, _ => none

end MapView

/-! ## TripForm.js -/

namespace TripForm

/-- The `form` state. -/
structure Form where
  current_location : String
  pickup_location : String
  dropoff_location : String
  current_cycle_used : ℚ
  deriving DecidableEq

/-- The fields of a generated daily log read by the violations summary. -/
structure DailyLog where
  day_of_trip : Option Nat
  violations : Option (List String)
  deriving DecidableEq

/-- The body of the `/generate-eld-logs/` response. -/
structure EldLogs where
  daily_logs : Option (List DailyLog)
  total_days : Option Nat
  deriving DecidableEq

/-- The body of the `/calculate-route/` response (a JSON object). -/
abbrev RoutePreview := MapView.RouteData

/-- The component state (`useState` cells). -/
structure State where
  form : Form
  loading : Bool
  calculating : Bool
  error : String
  routePreview : Option RoutePreview
  eldLogs : Option EldLogs
  deriving DecidableEq

/-- The two endpoints used by `calculateRoute`; `none` is a rejected request.
The second argument of `generateEldLogs` is the `start_date` string. -/
structure Api where
  calculateRoute : Form → Option RoutePreview
  generateEldLogs : RoutePreview → String → Option EldLogs

/-- What `calculateRoute` does to the outside: requests and the parent callback. -/
inductive Effect where
  | postCalculateRoute (form : Form)
  | postGenerateEldLogs (trip_plan : RoutePreview) (start_date : String)
  | onRouteCalculated (routeData : RoutePreview) (eldData : EldLogs)
  deriving DecidableEq

/-- The message set by the guard of `calculateRoute`. -/
def fillLocationsMessage : String := "Please fill in all location fields first"

/-- The message set by the `catch` of `calculateRoute`. -/
def calculateFailedMessage : String :=
  "Failed to calculate route. Please check your locations and try again."

/-- `calculateRoute` (lines 25-57), run to completion from state `st`:
the final state and the effects in the order they happen. `today` is the
`start_date` computed from the clock, `hasOnRouteCalculated` tells whether the
optional callback prop was given. -/
def calculateRoute (api : Api) (today : String) (hasOnRouteCalculated : Bool) (st : State) :
    State × List Effect :=
  if st.form.current_location = "" ∨ st.form.pickup_location = "" ∨
      st.form.dropoff_location = "" then
    ({ st with error := fillLocationsMessage }, [])
  else
    let st1 := { st with calculating := true, error := "" }
    match api.calculateRoute st.form with
    | none =>
      ({ st1 with error := calculateFailedMessage, calculating := false },
        [Effect.postCalculateRoute st.form])
    | some route =>
      let st2 := { st1 with routePreview := some route }
      match api.generateEldLogs route today with
      | none =>
        ({ st2 with error := calculateFailedMessage, calculating := false },
          [Effect.postCalculateRoute st.form, Effect.postGenerateEldLogs route today])
      | some eld =>
        let st3 := { st2 with eldLogs := some eld }
        ({ st3 with calculating := false },
          [Effect.postCalculateRoute st.form, Effect.postGenerateEldLogs route today]
            ++ (if hasOnRouteCalculated then [Effect.onRouteCalculated route eld] else []))

/-- A value interpolated as a JSX child: `undefined` renders nothing. -/
def jsxNat (v : Option Nat) : String :=
  match v with
  | some n => toString n
  | none => ""

/-- One `div.violation` element of the summary. -/
structure ViolationItem where
  key : String
  text : String
  deriving DecidableEq

/-- Lines 226-230: the items rendered for one log, `log.violations?.map(...)`. -/
def logViolationItems (index : Nat) (log : DailyLog) : List ViolationItem :=
  match log.violations with
  | some violations =>
    violations.enum.map (fun iv =>
      { key := toString index ++ "-" ++ toString iv.1
        text := "Day " ++ jsxNat log.day_of_trip ++ ": " ++ iv.2 })
  | none => []

/-- Lines 225-231: the children of `div.warnings` after the heading, in
document order (React flattens the nested arrays). -/
def violationItems (daily_logs : List DailyLog) : List ViolationItem :=
  daily_logs.enum.flatMap (fun il => logViolationItems il.1 il.2)

/-- `log.violations?.length > 0`. -/
def hasViolations (log : DailyLog) : Bool :=
  match log.violations with
  | some violations => decide (violations.length > 0)
  | none => false

/-- Lines 222-233: the `div.warnings` block, present iff some log has violations. -/
def warningsBlock (daily_logs : List DailyLog) : Option (List ViolationItem) :=
  if daily_logs.any hasViolations then some (violationItems daily_logs) else none

/-- The `div.eld-summary` element. -/
structure EldSummary where
  total_days : Option Nat
  warnings : Option (List ViolationItem)
  deriving DecidableEq

/-- Lines 218-235: `eldLogs && eldLogs.daily_logs && (...)`. -/
def eldSummary (eldLogs : Option EldLogs) : Option EldSummary :=
  match eldLogs with
  | some e =>
    match e.daily_logs with
    | some daily_logs => some { total_days := e.total_days, warnings := warningsBlock daily_logs }
    | none => none
  | none => none

/-- The ELD summary as part of the route preview (lines 180, 218): nothing is
rendered while `routePreview` is null. -/
def previewEldSummary (routePreview : Option RoutePreview) (eldLogs : Option EldLogs) :
    Option EldSummary :=
  match routePreview with
  | some _ => eldSummary eldLogs
  | none => none

end TripForm

/-! ## The props `TripDetails` and `ELDLogsPage` pass to `LogSheet` -/

/-- A props object handed to the `LogSheet` component by a parent: the
attributes written at the call sites (`dailyLog`, `trip`, `logs`), each
possibly missing. -/
structure LogSheetProps where
  dailyLog : Option LogSheet.DailyLog
  trip : Option TripDetails.Trip
  logs : Option (List TripDetails.Log)
  deriving DecidableEq

/-- `function LogSheet({ dailyLog })`: the component applied to a props
object; only `dailyLog` is destructured. -/
def LogSheetElement (props : LogSheetProps) : Option LogSheet.Sheet :=
  LogSheet props.dailyLog

namespace TripDetails

/-- Line 154: `<LogSheet trip={trip} logs={logs} />`. -/
def logSheetProps (trip : Trip) (logs : List Log) : LogSheetProps :=
  { dailyLog := none, trip := some trip, logs := some logs }

/-- What the log sheet element of the details view renders. -/
def logSheet (trip : Trip) (logs : List Log) : Option LogSheet.Sheet :=
  LogSheetElement (logSheetProps trip logs)

end TripDetails

/-! ## ELDLogsPage.js -/

namespace ELDLogsPage

/-- A trip identifier as JavaScript sees it: a number from the API or a string. -/
inductive JsId where
  | num (n : Nat)
  | str (s : String)
  deriving DecidableEq

/-- The fields of a fetched trip read by the page. -/
structure Trip where
  id : JsId
  eld_logs : Option (List LogSheet.DailyLog)
  deriving DecidableEq

/-- The `eldLogs` object the page attaches to a trip. -/
structure EldLogs where
  daily_logs : List LogSheet.DailyLog
  total_days : Nat
  deriving DecidableEq

/-- The object `{ ...trip, eldLogs: ... }`. -/
structure TripWithLogs where
  trip : Trip
  eldLogs : EldLogs
  deriving DecidableEq

/-- The body of the `/trips/` response. -/
structure TripsData where
  results : Option (List Trip)
  deriving DecidableEq

/-- The body of a `/trips/<id>/eld-logs/` response. -/
structure EldResponse where
  success : Bool
  eld_logs : Option (List LogSheet.DailyLog)
  deriving DecidableEq

/-- The component state (`useState` cells). -/
structure State where
  eldLogs : Option EldLogs
  selectedLog : Option LogSheet.DailyLog
  loading : Bool
  error : String
  trips : List TripWithLogs
  selectedTrip : Option TripWithLogs
  deriving DecidableEq

/-- Lines 44-58: the dedicated-endpoint attempt for one trip; `getEld` gives
the response, `none` when the request rejects. Reading `.length` of a missing
`eld_logs` after a truthy `success` throws and is caught like a rejection. -/
def fetchDedicated (getEld : JsId → Option EldResponse) (trip : Trip) : Option TripWithLogs :=
  match getEld trip.id with
  | none => none
  | some r =>
    if r.success then
      match r.eld_logs with
      | some logs =>
        if logs.length > 0 then
          some { trip := trip, eldLogs := { daily_logs := logs, total_days := logs.length } }
        else none
      | none => none
    else none

/-- Lines 37-59: the body of the loop over `allTrips`, acting on `tripsWithLogs`. -/
def collectTrip (getEld : JsId → Option EldResponse) (tripsWithLogs : List TripWithLogs)
    (trip : Trip) : List TripWithLogs :=
  match trip.eld_logs with
  | some logs =>
    if logs.length > 0 then
      tripsWithLogs ++ [{ trip := trip, eldLogs := { daily_logs := logs, total_days := logs.length } }]
    else
      match fetchDedicated getEld trip with
      | some t => tripsWithLogs ++ [t]
      | none => tripsWithLogs
  | none =>
    match fetchDedicated getEld trip with
    | some t => tripsWithLogs ++ [t]
    | none => tripsWithLogs

/-- The three `set` calls made when a trip is selected (lines 68-70, 75-77, 89-91). -/
def selectTrip (trip : TripWithLogs) (st : State) : State :=
  { st with selectedTrip := some trip
            eldLogs := some trip.eldLogs
            selectedLog := trip.eldLogs.daily_logs[0]? }

/-- `handleTripSelect(trip)`. -/
def handleTripSelect (trip : TripWithLogs) (st : State) : State :=
  selectTrip trip st

/-- The message set by the `catch` of `fetchTripsWithEldLogs`. -/
def loadFailedMessage : String :=
  "Failed to load ELD logs. Please ensure you have created trips with route calculations."

/-- `fetchTripsWithEldLogs` (lines 27-86) run to completion from state `st`.
`tripsResponse` is the body of the `/trips/` response (`none` when the request
rejects), `tripId` the route parameter. -/
def fetchTripsWithEldLogs (tripsResponse : Option TripsData) (getEld : JsId → Option EldResponse)
    (tripId : Option String) (st : State) : State :=
  let st1 := { st with loading := true }
  match tripsResponse with
  | none => { st1 with error := loadFailedMessage, loading := false }
  | some data =>
    let allTrips := data.results.getD []
    let tripsWithLogs := allTrips.foldl (collectTrip getEld) []
    let st2 := { st1 with trips := tripsWithLogs }
    let st3 :=
      if (jsOr tripId "") ≠ "" then
        match tripsWithLogs.find? (fun t => decide (t.trip.id = JsId.str (jsOr tripId ""))) with
        | some specificTrip => selectTrip specificTrip st2
        | none => st2
      else
        match tripsWithLogs with
        | recentTrip :: _ => selectTrip recentTrip st2
        | [] => st2
    { st3 with loading := false }

/-- Specification side: a fetched trip has ELD logs when its embedded
`eld_logs` list is non-empty, or otherwise when the dedicated request succeeds
with `success` set and a non-empty `eld_logs` list. -/
def hasEldLogs (getEld : JsId → Option EldResponse) (trip : Trip) : Bool :=
  match trip.eld_logs with
  | some (_ :: _) => true
  | _ =>
    match getEld trip.id with
    | some r =>
      r.success && (match r.eld_logs with
        | some (_ :: _) => true
        | _ => false)
    | none => false

/-- Line 174: `selectedLog && <LogSheet dailyLog={selectedLog} />`. -/
def logDisplay (st : State) : Option LogSheet.Sheet :=
  match st.selectedLog with
  | some log => LogSheetElement { dailyLog := some log, trip := none, logs := none }
  | none => none

end ELDLogsPage

/-! ## App.js and the first render of the pages -/

namespace App

/-- A `Link` of the navigation bar (`target` is its `to` prop). -/
structure NavLink where
  target : String
  className : String
  text : String
  deriving DecidableEq

/-- `Navigation()` for the current `location.pathname`. -/
def Navigation (pathname : String) : List NavLink :=
  [ { target := "/"
      className := "nav-btn " ++ (if pathname = "/" then "active" else "")
      text := "🏠 Dashboard" },
    { target := "/eld-logs"
      className := "nav-btn " ++ (if pathname = "/eld-logs" then "active" else "")
      text := "📊 ELD Logs" } ]

/-- The text of the first render of `Home`: `loading` starts as `true`, so
the loading view is returned (Home.js lines 9, 56-62). -/
def homeInitialText : List String := ["Loading trips..."]

/-- The text of the first render of `ELDLogsPage` without props: `loading`
starts as `!propEldLogs`, that is `true` (ELDLogsPage.js lines 9, 94-100). -/
def eldLogsInitialText : List String := ["Loading ELD logs..."]

/-- The text of the first render of `TripDetails`: `loading` starts as `true`
(TripDetails.js lines 11, 40-46). -/
def tripDetailsInitialText : List String := ["Loading trip details..."]

/-- The text shown by `Routes` on first render: the element of the route
matching the path (`/`, `/eld-logs`, `/trip/:id`), nothing when none matches. -/
def routesInitialText (pathname : String) : List String :=
  if pathname = "/" then homeInitialText
  else if pathname = "/eld-logs" then eldLogsInitialText
  else if "/trip/".toList.isPrefixOf pathname.toList then tripDetailsInitialText
  else []

/-- The text nodes of the first render of `App` at a given path: the
navigation links, then the routed page. -/
def initialText (pathname : String) : List String :=
  (Navigation pathname).map NavLink.text ++ routesInitialText pathname

/-- Whether the characters `p` occur contiguously in `t`. -/
def occursIn (p : List Char) : List Char → Bool
  | [] => p.isEmpty
  | c :: cs => p.isPrefixOf (c :: cs) || occursIn p cs

/-- The matcher of the test, `/FMCSA Hours of Service Tracker/i`, on a text:
a case-insensitive search for the phrase. -/
def matchesTitle (text : String) : Bool :=
  occursIn ("FMCSA Hours of Service Tracker".toList.map Char.toLower)
    (text.toList.map Char.toLower)

/-- `screen.getByText(...)` right after `render(<App />)` finds an element iff
some text of the first render matches. -/
def titleFound (pathname : String) : Bool :=
  (initialText pathname).any matchesTitle

end App

/-! ## TripForm.js: handleSubmit -/

namespace TripForm

/-- The request body built by `handleSubmit`:
`{ ...form, route_data: routePreview, eld_logs: eldLogs.daily_logs || [] }`. -/
structure TripData where
  form : Form
  route_data : RoutePreview
  eld_logs : List DailyLog
  deriving DecidableEq

/-- The `trip` object of the save response; the form reads none of its
fields and only hands it to the parent, so it is kept by its identifier. -/
structure SavedTrip where
  id : Nat
  deriving DecidableEq

/-- The body of the `/save-trip-with-eld/` response. -/
structure SaveResponse where
  success : Bool
  trip : Option SavedTrip
  error : Option String
  deriving DecidableEq

/-- What `handleSubmit` does to the outside, in the order it happens. -/
inductive SubmitEffect where
  | preventDefault
  | postSaveTrip (tripData : TripData)
  | onTripCreated (trip : Option SavedTrip)
  deriving DecidableEq

/-- The message set by the guard of `handleSubmit`. -/
def calculateFirstMessage : String := "Please calculate route and generate ELD logs first"

/-- The message set by the `catch` of `handleSubmit`. -/
def createFailedMessage : String := "Failed to create trip. Please try again."

/-- The form after a successful save (lines 84-89). -/
def emptyForm : Form :=
  { current_location := "", pickup_location := "", dropoff_location := "",
    current_cycle_used := 0 }

/-- `handleSubmit` (lines 59-101), run to completion from state `st`: the
final state and the effects in order. `save` answers the request to
`/save-trip-with-eld/` (`none` when it rejects or has no body);
`hasOnTripCreated` tells whether the callback prop is a function (calling a
missing one throws inside the `try`). -/
def handleSubmit (save : TripData → Option SaveResponse) (hasOnTripCreated : Bool) (st : State) :
    State × List SubmitEffect :=
  let st1 := { st with loading := true, error := "" }
  match st.routePreview, st.eldLogs with
  | some routePreview, some eldLogs =>
    let tripData : TripData :=
      { form := st.form, route_data := routePreview, eld_logs := eldLogs.daily_logs.getD [] }
    match save tripData with
    | none =>
      ({ st1 with error := createFailedMessage, loading := false },
        [SubmitEffect.preventDefault, SubmitEffect.postSaveTrip tripData])
    | some response =>
      if response.success then
        if hasOnTripCreated then
          ({ st1 with form := emptyForm, routePreview := none, eldLogs := none,
                      loading := false },
            [SubmitEffect.preventDefault, SubmitEffect.postSaveTrip tripData,
              SubmitEffect.onTripCreated response.trip])
        else
          ({ st1 with error := createFailedMessage, loading := false },
            [SubmitEffect.preventDefault, SubmitEffect.postSaveTrip tripData])
      else
        ({ st1 with error := "Failed to save trip: " ++ showUndef response.error,
                    loading := false },
          [SubmitEffect.preventDefault, SubmitEffect.postSaveTrip tripData])
  | _, _ =>
    ({ st1 with error := calculateFirstMessage, loading := false },
      [SubmitEffect.preventDefault])

end TripForm

/-! ## Home.js: the cycle progress bar -/

namespace Home

/-- The field of a listed trip read by the progress bar. -/
structure Trip where
  current_cycle_used : ℚ
  deriving DecidableEq

/-- Line 140: the width of the bar in percent,
`Math.min((trip.current_cycle_used / 70) * 100, 100)`. -/
def cycleBarWidth (trip : Trip) : ℚ :=
  min ((trip.current_cycle_used / 70) * 100) 100

/-- Lines 142-143: the colour of the bar. -/
def cycleBarColor (trip : Trip) : String :=
  if trip.current_cycle_used > 60 then "#dc3545"
  else if trip.current_cycle_used > 50 then "#ffc107"
  else "#28a745"

end Home

/-! ## IEEE binary64 arithmetic for the rest-stop computation

JavaScript numbers are binary64 values. The finite ones are the numbers
`m * 2^e` with an integer `m` of at most 53 bits; every operation returns the
representable value nearest to the exact result, ties going to the even
significand. The exponent range is left out: the values of a trip (miles,
degrees, fractions) stay far from overflow and from the subnormal numbers. -/

namespace F64

/-- A finite binary64 value `m * 2^e`, kept in canonical form: `m` is odd, or
`m = 0` and `e = 0`. -/
structure Dbl where
  m : Int
  e : Int
  deriving DecidableEq

/-- Number of binary digits of `n`, counted with a bound on the digits. -/
def bitLengthAux : Nat → Nat → Nat
  | 0, _ => 0
  | fuel + 1, n => if n = 0 then 0 else bitLengthAux fuel (n / 2) + 1

/-- Number of binary digits of `n` (for `n` below `2^2200`). -/
def bitLength (n : Nat) : Nat := bitLengthAux 2200 n

/-- Position of the leading binary digit of a positive `n`. -/
def log2 (n : Nat) : Nat := bitLength n - 1

/-- Number of trailing zero binary digits of a positive `n`. -/
def trailingZeros (n : Nat) : Nat :=
  log2 (Nat.gcd n (2 ^ log2 n))

/-- The canonical form of `m * 2^e`. -/
def canon (m e : Int) : Dbl :=
  if m = 0 then ⟨0, 0⟩
  else ⟨m / ((2 ^ trailingZeros m.natAbs : Nat) : Int), e + (trailingZeros m.natAbs : Int)⟩

/-- Rounding of the positive number `N / D * 2^E` to 53 significant bits, to
nearest with ties to even: the result is the pair `(q, e)` standing for
`q * 2^e`, with `2^52 <= q <= 2^53`. -/
def roundPos (N D : Nat) (E : Int) : Nat × Int :=
  let s : Int := 53 - (log2 N : Int) + (log2 D : Int)
  let num := if 0 ≤ s then N * 2 ^ s.toNat else N
  let den := if 0 ≤ s then D else D * 2 ^ (-s).toNat
  let wide := decide (2 ^ 53 ≤ num / den)
  let den' := if wide then 2 * den else den
  let s' := if wide then s - 1 else s
  let q := num / den'
  let r := num % den'
  let q' := if den' < 2 * r ∨ (2 * r = den' ∧ q % 2 = 1) then q + 1 else q
  (q', E - s')

/-- The binary64 value nearest to `n / D * 2^E` (for `D > 0`). -/
def ofQuot (n : Int) (D : Nat) (E : Int) : Dbl :=
  if n = 0 then ⟨0, 0⟩
  else
    let qe := roundPos n.natAbs D E
    canon (if n < 0 then -(qe.1 : Int) else (qe.1 : Int)) qe.2

/-- An integer literal. -/
def ofInt (n : Int) : Dbl := ofQuot n 1 0

/-- A decimal literal `n / 10^k`, as parsed from JSON: `ofDecimal 3172 1` is
the number written `317.2`. -/
def ofDecimal (n : Int) (k : Nat) : Dbl := ofQuot n (10 ^ k) 0

/-- `x + y`. -/
def add (x y : Dbl) : Dbl :=
  let e := min x.e y.e
  ofQuot (x.m * 2 ^ (x.e - e).toNat + y.m * 2 ^ (y.e - e).toNat) 1 e

/-- `x - y`. -/
def sub (x y : Dbl) : Dbl :=
  let e := min x.e y.e
  ofQuot (x.m * 2 ^ (x.e - e).toNat - y.m * 2 ^ (y.e - e).toNat) 1 e

/-- `x * y`. -/
def mul (x y : Dbl) : Dbl := ofQuot (x.m * y.m) 1 (x.e + y.e)

/-- `x / y` for a non-zero `y`. -/
def div (x y : Dbl) : Dbl :=
  ofQuot (if y.m < 0 then -x.m else x.m) y.m.natAbs (x.e - y.e)

/-- `x < y`. -/
def lt (x y : Dbl) : Bool :=
  let e := min x.e y.e
  decide (x.m * 2 ^ (x.e - e).toNat < y.m * 2 ^ (y.e - e).toNat)

end F64

namespace MapView

/-- Lines 102-105 in binary64 arithmetic, for known pickup and dropoff: the
position of the rest stop pushed at the end of a day, if one is pushed. A
quotient by a zero total is not finite and fails the test. -/
def restStopPositionInDoubles (pickup dropoff : F64.Dbl × F64.Dbl)
    (accumulatedDistance dayDistance totalDistance : F64.Dbl) : Option (F64.Dbl × F64.Dbl) :=
  if totalDistance.m = 0 then none
  else
    let progress := F64.div (F64.add accumulatedDistance dayDistance) totalDistance
    if F64.lt (F64.ofInt 0) progress && F64.lt progress (F64.ofInt 1) then
      some (F64.add pickup.1 (F64.mul (F64.sub dropoff.1 pickup.1) progress),
        F64.add pickup.2 (F64.mul (F64.sub dropoff.2 pickup.2) progress))
    else none

/-- The rest-stop part of `hosPlans.forEach` (lines 96-114, 133) in binary64
arithmetic, for the daily distances from day `dayIndex` on: the pairs of a day
index and the position of the rest stop pushed for it. -/
def restStopsInDoubles (pickup dropoff : F64.Dbl × F64.Dbl) (totalDistance : F64.Dbl) (n : Nat) :
    List F64.Dbl → Nat → F64.Dbl → List (Nat × (F64.Dbl × F64.Dbl))
  | [], _, _ => []
  | dayDistance :: rest, dayIndex, accumulatedDistance =>
    (if (dayIndex : Int) < (n : Int) - 1 then
      match restStopPositionInDoubles pickup dropoff accumulatedDistance dayDistance
          totalDistance with
      | some position => [(dayIndex, position)]
      | none => []
    else [])
    ++ restStopsInDoubles pickup dropoff totalDistance n rest (dayIndex + 1)
        (F64.add accumulatedDistance dayDistance)

end MapView

/-! ## Properties of LogSheet.js -/

namespace LogSheet

/-- The label of each of the 96 slots, digit by digit. -/
theorem formatTime_table :
    ∀ slot ∈ List.range 96,
      formatTime slot =
        String.mk [Nat.digitChar (slot / 4 / 10), Nat.digitChar (slot / 4 % 10), ':',
          Nat.digitChar ((slot % 4) * 15 / 10), Nat.digitChar ((slot % 4) * 15 % 10)] := by
  decide

/-- Reading the digits of a label back gives the slot it was printed for. -/
theorem formatTime_decode :
    ∀ slot ∈ List.range 96,
      (((formatTime slot).data.map Char.toNat).map (fun n => n - 48)) =
        [slot / 4 / 10, slot / 4 % 10, 10, (slot % 4) * 15 / 10, (slot % 4) * 15 % 10] := by
  decide

/-- C1: for every slot in 0..95 the hour `floor(slot/4)` is below 24, the
minute `(slot mod 4) * 15` is one of 0, 15, 30, 45, and `formatTime slot` is the
five-character label made of the two decimal digits of the hour, a colon, and
the two decimal digits of the minute. -/
theorem formatTime_spec (slot : Nat) (h : slot ≤ 95) :
    slot / 4 < 24 ∧ (slot % 4) * 15 ∈ [0, 15, 30, 45] ∧
    (formatTime slot).length = 5 ∧
    formatTime slot =
      String.mk [Nat.digitChar (slot / 4 / 10), Nat.digitChar (slot / 4 % 10), ':',
        Nat.digitChar ((slot % 4) * 15 / 10), Nat.digitChar ((slot % 4) * 15 % 10)] := by
  have hmem : slot ∈ List.range 96 := List.mem_range.mpr (by omega)
  have htab := formatTime_table slot hmem
  refine ⟨by omega, ?_, ?_, htab⟩
  · have h4 : slot % 4 < 4 := Nat.mod_lt _ (by decide)
    interval_cases (slot % 4) <;> simp
  · rw [htab]; rfl

/-- C1 at slot 37, printed as 09:15. -/
theorem formatTime_spec_witness :
    37 / 4 < 24 ∧ (37 % 4) * 15 ∈ [0, 15, 30, 45] ∧ (formatTime 37).length = 5 ∧
    formatTime 37 = "09:15" :=
  formatTime_spec 37 (by decide)

/-- Two slots of the day with the same label are the same slot. -/
theorem formatTime_injOn (s₁ s₂ : Nat) (h₁ : s₁ ≤ 95) (h₂ : s₂ ≤ 95)
    (h : formatTime s₁ = formatTime s₂) : s₁ = s₂ := by
  have d₁ := formatTime_decode s₁ (List.mem_range.mpr (by omega))
  have d₂ := formatTime_decode s₂ (List.mem_range.mpr (by omega))
  rw [h, d₂] at d₁
  simp only [List.cons.injEq, and_true, true_and] at d₁
  omega

/-- C2: the slot/time mapping is a bijection between the slots 0..95 and the
pairs (hour in 0..23, minute in 0, 15, 30, 45). `slotToTime` is the pair that
`formatTime` prints and `timeToSlot` is the slot index `hour * 4 + quarter`
computed by `renderLogGrid`; going from a slot to its time and back gives the
slot, going from a time to its slot and back gives the time, and `formatTime`
gives distinct labels to distinct slots. -/
theorem slot_time_bijection :
    (∀ slot, formatTime slot =
        padStart (toString (slotToTime slot).1) 2 '0' ++ ":"
          ++ padStart (toString (slotToTime slot).2) 2 '0') ∧
    (∀ grid hour quarter, quarter < 4 →
        (renderSlot grid hour quarter).key = timeToSlot hour (quarter * 15)) ∧
    (∀ slot, slot ≤ 95 →
        (slotToTime slot).1 < 24 ∧ (slotToTime slot).2 ∈ [0, 15, 30, 45] ∧
        timeToSlot (slotToTime slot).1 (slotToTime slot).2 = slot) ∧
    (∀ hour minute, hour < 24 → minute ∈ [0, 15, 30, 45] →
        timeToSlot hour minute ≤ 95 ∧ slotToTime (timeToSlot hour minute) = (hour, minute)) ∧
    (∀ s₁ s₂, s₁ ≤ 95 → s₂ ≤ 95 → formatTime s₁ = formatTime s₂ → s₁ = s₂) := by
  refine ⟨fun _ => rfl, ?_, ?_, ?_, formatTime_injOn⟩
  · intro grid hour quarter hq
    simp only [renderSlot, timeToSlot]
    omega
  · intro slot h
    have h4 : slot % 4 < 4 := Nat.mod_lt _ (by decide)
    refine ⟨?_, ?_, ?_⟩
    · simp only [slotToTime]; omega
    · simp only [slotToTime]
      interval_cases (slot % 4) <;> simp
    · simp only [slotToTime, timeToSlot]; omega
  · intro hour minute hh hm
    simp only [List.mem_cons, List.mem_singleton, List.not_mem_nil, or_false] at hm
    rcases hm with rfl | rfl | rfl | rfl <;>
      refine ⟨by simp only [timeToSlot]; omega, ?_⟩ <;>
      simp only [slotToTime, timeToSlot, Prod.mk.injEq] <;> omega

/-- C2 at slot 37 and at the time 09:15. -/
theorem slot_time_bijection_witness :
    timeToSlot (slotToTime 37).1 (slotToTime 37).2 = 37 ∧
    slotToTime (timeToSlot 9 15) = (9, 15) ∧
    (formatTime 37 = formatTime 37 → 37 = 37) :=
  ⟨(slot_time_bijection.2.2.1 37 (by decide)).2.2,
   (slot_time_bijection.2.2.2.1 9 15 (by decide) (by decide)).2,
   slot_time_bijection.2.2.2.2 37 37 (by decide) (by decide)⟩

/-- Reading the grid below index 96 does not see a truncation at 96. -/
theorem getElem?_take_96 (g : List (Option String)) (i : Nat) (h : i < 96) :
    (g.take 96)[i]? = g[i]? := by
  rw [List.getElem?_take]
  simp [h]

/-- A slot of the rendered grid only reads the first 96 grid entries. -/
theorem renderSlot_take (g : List (Option String)) (hour quarter : Nat)
    (hh : hour < 24) (hq : quarter < 4) :
    renderSlot (g.take 96) hour quarter = renderSlot g hour quarter := by
  simp only [renderSlot]
  rw [getElem?_take_96 g (hour * 4 + quarter) (by omega)]

/-- An hour block of the rendered grid only reads the first 96 grid entries. -/
theorem renderHour_take (g : List (Option String)) (hour : Nat) (hh : hour < 24) :
    renderHour (g.take 96) hour = renderHour g hour := by
  simp only [renderHour, HourBlock.mk.injEq, true_and]
  apply List.map_congr_left
  intro q hq
  exact renderSlot_take g hour q hh (List.mem_range.mp hq)

/-- The displayed slots, one per slot index, in index order. -/
theorem displayedSlots_eq (dl : DailyLog) :
    displayedSlots dl = (List.range 96).map (fun i => renderSlot (gridOf dl) (i / 4) (i % 4)) := by
  rfl

/-- C3: whatever the grid of the daily log (absent, empty, shorter or longer
than 96), `renderLogGrid` produces exactly 24 hour blocks keyed 0..23 in
ascending order, each with exactly 4 slots, 96 slots in all, whose slot indices
are 0, 1, ..., 95 in ascending order, slot `i` lying in hour block `floor(i/4)`;
and the output is unchanged when the grid is cut after its first 96 entries, so
entries at index 96 or above are never displayed. -/
theorem renderLogGrid_shape (dl : DailyLog) :
    (renderLogGrid dl).length = 24 ∧
    (renderLogGrid dl).map HourBlock.key = List.range 24 ∧
    (∀ b ∈ renderLogGrid dl, b.slots.length = 4) ∧
    (displayedSlots dl).length = 96 ∧
    (displayedSlots dl).map TimeSlot.key = List.range 96 ∧
    (∀ b ∈ renderLogGrid dl, ∀ s ∈ b.slots, s.key / 4 = b.key) ∧
    (∀ g : List (Option String),
      renderLogGrid { dl with log_sheet_data := some ⟨some (g.take 96)⟩ } =
        renderLogGrid { dl with log_sheet_data := some ⟨some g⟩ }) := by
  refine ⟨by simp [renderLogGrid], ?_, ?_, ?_, ?_, ?_, ?_⟩
  · simp only [renderLogGrid, List.map_map]
    exact List.map_id _
  · intro b hb
    simp only [renderLogGrid, List.mem_map] at hb
    obtain ⟨h, -, rfl⟩ := hb
    simp [renderHour]
  · rw [displayedSlots_eq]; simp
  · rw [displayedSlots_eq]; rfl
  · intro b hb s hs
    simp only [renderLogGrid, List.mem_map] at hb
    obtain ⟨h, -, rfl⟩ := hb
    simp only [renderHour, List.mem_map, List.mem_range] at hs
    obtain ⟨q, hq, rfl⟩ := hs
    show (h * 4 + q) / 4 = h
    omega
  · intro g
    simp only [renderLogGrid, gridOf, Option.getD_some]
    apply List.map_congr_left
    intro h hh
    exact renderHour_take g h (List.mem_range.mp hh)

/-- C3 on a daily log whose grid has 100 entries: 24 blocks, 96 slots, and
the same output as for the grid cut to 96 entries. -/
theorem renderLogGrid_shape_witness :
    (renderLogGrid ⟨some ⟨some (List.replicate 100 (some "driving"))⟩, none, true⟩).length = 24 ∧
    (displayedSlots ⟨some ⟨some (List.replicate 100 (some "driving"))⟩, none, true⟩).length
      = 96 ∧
    renderLogGrid ⟨some ⟨some ((List.replicate 100 (some "driving")).take 96)⟩, none, true⟩ =
      renderLogGrid ⟨some ⟨some (List.replicate 100 (some "driving"))⟩, none, true⟩ :=
  ⟨(renderLogGrid_shape ⟨some ⟨some (List.replicate 100 (some "driving"))⟩, none, true⟩).1,
   (renderLogGrid_shape ⟨some ⟨some (List.replicate 100 (some "driving"))⟩, none, true⟩).2.2.2.1,
   (renderLogGrid_shape ⟨some ⟨some (List.replicate 100 (some "driving"))⟩, none, true⟩).2.2.2.2.2.2
     (List.replicate 100 (some "driving"))⟩

/-- The status computed for a grid entry, by cases on the entry. -/
theorem jsOr_join_eq (g : List (Option String)) (i : Nat) :
    jsOr (g[i]?).join "off_duty" =
      (match g[i]? with
        | some (some st) => if st = "" then "off_duty" else st
        | _ => "off_duty") := by
  rcases hgi : g[i]? with _ | _ | st <;> simp [jsOr, Option.join]

/-- C8: for every daily log and every slot index `i` in 0..95, the `i`-th
displayed slot has key `i` and its status is the grid entry at `i` when the
grid is present and has a non-empty string there, and `off_duty` when
`log_sheet_data` or `grid` is absent, the grid is too short, or the entry is
null or empty; colour and title are derived from that status. A daily log
without a grid is displayed as 96 `off_duty` slots. -/
theorem displayed_status (dl : DailyLog) (i : Nat) (h : i < 96) :
    (∃ s, (displayedSlots dl)[i]? = some s ∧ s.key = i ∧
      s.status =
        (match dl.log_sheet_data.bind LogSheetData.grid with
          | some g =>
            (match g[i]? with
              | some (some st) => if st = "" then "off_duty" else st
              | _ => "off_duty")
          | none => "off_duty") ∧
      s.backgroundColor = statusColors s.status ∧
      s.title = formatTime i ++ " - " ++ showUndef (statusLabels s.status)) ∧
    (dl.log_sheet_data.bind LogSheetData.grid = none →
      (displayedSlots dl).map TimeSlot.status = List.replicate 96 "off_duty") := by
  have hdiv : i / 4 * 4 + i % 4 = i := by omega
  constructor
  · refine ⟨renderSlot (gridOf dl) (i / 4) (i % 4), ?_, ?_, ?_, ?_, ?_⟩
    · rw [displayedSlots_eq]
      simp [h]
    · simp only [renderSlot]; exact hdiv
    · simp only [renderSlot, hdiv, jsOr_join_eq, gridOf]
      rcases dl with ⟨_ | ⟨_ | g⟩, v, c⟩ <;> simp
    · simp only [renderSlot]
    · simp only [renderSlot, hdiv]
  · intro hg
    have hgrid : gridOf dl = [] := by
      rcases dl with ⟨_ | ⟨_ | g⟩, v, c⟩ <;> simp_all [gridOf]
    rw [displayedSlots_eq, hgrid]
    rfl

/-- C8 at slot 1 of a two-entry grid whose second entry is `driving`. -/
theorem displayed_status_witness :
    ∃ s, (displayedSlots ⟨some ⟨some [none, some "driving"]⟩, none, true⟩)[1]? = some s ∧
      s.key = 1 ∧ s.status = "driving" ∧
      s.backgroundColor = statusColors s.status ∧
      s.title = formatTime 1 ++ " - " ++ showUndef (statusLabels s.status) :=
  (displayed_status ⟨some ⟨some [none, some "driving"]⟩, none, true⟩ 1 (by decide)).1

end LogSheet

/-- C10, failing instance: a daily log flagged `hos_compliant` that carries a
violation is rendered with the badge `HOS Compliant` next to a non-empty
violations section, and a log flagged non-compliant with an empty violation
list gets the badge `HOS Violations`; so the badge is not equivalent to the
violation list being empty or absent. -/
theorem compliance_badge_counterexample :
    (∃ sheet, LogSheet (some ⟨none, some ["Daily driving limit exceeded"], true⟩) = some sheet ∧
      sheet.badge = "✅ HOS Compliant" ∧
      sheet.violations = some ["Daily driving limit exceeded"]) ∧
    (∃ sheet, LogSheet (some ⟨none, some [], false⟩) = some sheet ∧
      sheet.badge = "❌ HOS Violations" ∧ sheet.violations = none) ∧
    ¬ (∀ dl sheet, LogSheet (some dl) = some sheet →
        (sheet.badge = "✅ HOS Compliant" ↔ (dl.violations = none ∨ dl.violations = some []))) := by
  refine ⟨⟨_, rfl, rfl, rfl⟩, ⟨_, rfl, rfl, rfl⟩, ?_⟩
  intro hall
  have h := hall ⟨none, some ["Daily driving limit exceeded"], true⟩ _ rfl
  exact absurd (h.mp rfl) (by decide)

/-- C10, amended: the badge follows the `hos_compliant` flag of the daily
log (`HOS Compliant` iff the flag is set, `HOS Violations` otherwise), the
violations section is shown iff the violation list is present and non-empty,
and for every log whose flag agrees with its list (flag set iff the list is
empty or absent) the badge is `HOS Compliant` iff the list is empty or absent,
never `HOS Compliant` with a violations section and never `HOS Violations`
without one. -/
theorem compliance_badge_follows_flag (dl : LogSheet.DailyLog) :
    ∃ sheet, LogSheet (some dl) = some sheet ∧
      (sheet.badge = "✅ HOS Compliant" ↔ dl.hos_compliant = true) ∧
      (sheet.badge = "❌ HOS Violations" ↔ dl.hos_compliant = false) ∧
      (sheet.violations.isSome ↔ ∃ v, dl.violations = some v ∧ v ≠ []) ∧
      (∀ v, sheet.violations = some v → dl.violations = some v) ∧
      ((dl.hos_compliant = true ↔ (dl.violations = none ∨ dl.violations = some [])) →
        (sheet.badge = "✅ HOS Compliant" ↔
          (dl.violations = none ∨ dl.violations = some [])) ∧
        ¬ (sheet.badge = "✅ HOS Compliant" ∧ sheet.violations.isSome) ∧
        ¬ (sheet.badge = "❌ HOS Violations" ∧ sheet.violations = none)) := by
  refine ⟨_, rfl, ?_⟩
  rcases dl with ⟨d, _ | _ | ⟨v, vs⟩, _ | _⟩ <;>
    simp [LogSheet.complianceBadge, LogSheet.violationsSection]

/-- C10 amended, on a compliant log without violations and its flag set. -/
theorem compliance_badge_follows_flag_witness :
    ∃ sheet, LogSheet (some ⟨none, some [], true⟩) = some sheet ∧
      (sheet.badge = "✅ HOS Compliant" ↔
        ((some [] : Option (List String)) = none ∨ (some [] : Option (List String)) = some [])) :=
  match compliance_badge_follows_flag ⟨none, some [], true⟩ with
  | ⟨sheet, hs, _, _, _, _, himp⟩ => ⟨sheet, hs, (himp (by decide)).1⟩

/-! ## Properties of MapView.js -/

namespace JsNum

/-- A number that passes `x > 0 && x < 1` is finite and strictly between 0 and 1. -/
theorem guard_fin (x : JsNum) (h : (x.gt 0 && x.lt 1) = true) :
    ∃ f : ℚ, x = fin f ∧ 0 < f ∧ f < 1 := by
  cases x <;> simp_all [gt, lt]

/-- A quotient by zero never passes `x > 0 && x < 1`. -/
theorem guard_div_zero (a : ℚ) : ((div a 0).gt 0 && (div a 0).lt 1) = false := by
  unfold div
  simp only [if_true]
  split_ifs <;> simp [gt, lt]

/-- A finite quotient is a quotient by a non-zero number. -/
theorem div_eq_fin (a b f : ℚ) (h : div a b = fin f) : b ≠ 0 ∧ f = a / b := by
  unfold div at h
  split_ifs at h with hb h1 h2
  · exact ⟨hb, by injection h with h; exact h.symm⟩

end JsNum

namespace MapView

/-- The interpolation at a finite fraction is the finite linear combination. -/
theorem interpolate_fin (a b f : ℚ) :
    interpolate a b (JsNum.fin f) = JsNum.fin (a + (b - a) * f) := rfl

/-- No location marker is a stop marker. -/
theorem locationMarkers_not_stop (trip : Option Trip) (coordinates : Option Coordinates) :
    ∀ m ∈ locationMarkers trip coordinates, isStop m = false := by
  intro m hm
  unfold locationMarkers at hm
  rcases coordinates with _ | c
  · rcases trip with _ | t
    · simp at hm
    · simp only [List.mem_append] at hm
      rcases hm with (hm | hm) | hm <;> split at hm <;> simp at hm <;> subst hm <;> simp [isStop]
  · simp only [List.mem_append] at hm
    rcases hm with (hm | hm) | hm <;> split at hm <;> simp at hm <;> subst hm <;> simp [isStop]

/-- Membership in the result of the rest-stop step. -/
theorem mem_restStop (c : Coordinates) (T : ℚ) (n i : Nat) (acc d : ℚ) (ms : List Marker)
    (m : Marker) (hm : m ∈ restStop c T n i acc d ms) :
    m ∈ ms ∨ ∃ pk dr, c.pickup = some pk ∧ c.dropoff = some dr ∧
      ((JsNum.div (acc + d) T).gt 0 && (JsNum.div (acc + d) T).lt 1) = true ∧
      m = restMarker pk dr (JsNum.div (acc + d) T) i := by
  unfold restStop at hm
  split_ifs at hm with h1
  · rcases hp : c.pickup with _ | pk <;> rcases hd : c.dropoff with _ | dr <;>
      simp only [hp, hd] at hm
    · exact Or.inl hm
    · exact Or.inl hm
    · exact Or.inl hm
    · split_ifs at hm with h2
      · rcases List.mem_append.mp hm with h | h
        · exact Or.inl h
        · exact Or.inr ⟨pk, dr, rfl, rfl, h2, List.mem_singleton.mp h⟩
      · exact Or.inl hm
  · exact Or.inl hm

/-- Membership in the result of one fuel-stop step. -/
theorem mem_fuelStop (c : Coordinates) (T : ℚ) (i : Nat) (acc d : ℚ) (fs : Nat)
    (ms : List Marker) (j : Nat) (m : Marker) (hm : m ∈ fuelStop c T i acc d fs ms j) :
    m ∈ ms ∨ ∃ pk dr, c.pickup = some pk ∧ c.dropoff = some dr ∧
      ((JsNum.div (acc + d * ((j : ℚ) + 1) / ((fs : ℚ) + 1)) T).gt 0 &&
        (JsNum.div (acc + d * ((j : ℚ) + 1) / ((fs : ℚ) + 1)) T).lt 1) = true ∧
      m = fuelMarker pk dr (JsNum.div (acc + d * ((j : ℚ) + 1) / ((fs : ℚ) + 1)) T) j i := by
  unfold fuelStop at hm
  rcases hp : c.pickup with _ | pk <;> rcases hd : c.dropoff with _ | dr <;>
    simp only [hp, hd] at hm
  · exact Or.inl hm
  · exact Or.inl hm
  · exact Or.inl hm
  · split_ifs at hm with h2
    · rcases List.mem_append.mp hm with h | h
      · exact Or.inl h
      · exact Or.inr ⟨pk, dr, rfl, rfl, h2, List.mem_singleton.mp h⟩
    · exact Or.inl hm

/-- A property of markers that holds for every rest and fuel marker built
from a fraction passing the guard is preserved by the fuel-stop loop. -/
theorem fuelLoop_forall (P : Marker → Prop) (c : Coordinates) (T : ℚ)
    (hfuel : ∀ pk dr a j i, c.pickup = some pk → c.dropoff = some dr →
      ((JsNum.div a T).gt 0 && (JsNum.div a T).lt 1) = true →
      P (fuelMarker pk dr (JsNum.div a T) j i))
    (i : Nat) (acc d : ℚ) (fs : Nat) :
    ∀ (js : List Nat) (ms : List Marker), (∀ m ∈ ms, P m) →
      ∀ m ∈ js.foldl (fuelStop c T i acc d fs) ms, P m := by
  intro js
  induction js with
  | nil => intro ms h; simpa using h
  | cons j js ih =>
    intro ms h
    rw [List.foldl_cons]
    apply ih
    intro m hm
    rcases mem_fuelStop c T i acc d fs ms j m hm with h1 | ⟨pk, dr, hp, hd, hg, rfl⟩
    · exact h m h1
    · exact hfuel pk dr _ j i hp hd hg

/-- A property of markers that holds for every rest and fuel marker built
from a fraction passing the guard is preserved by the whole `forEach`. -/
theorem forEachDay_forall (P : Marker → Prop) (c : Coordinates) (T : ℚ) (n : Nat)
    (hrest : ∀ pk dr a i, c.pickup = some pk → c.dropoff = some dr →
      ((JsNum.div a T).gt 0 && (JsNum.div a T).lt 1) = true →
      P (restMarker pk dr (JsNum.div a T) i))
    (hfuel : ∀ pk dr a j i, c.pickup = some pk → c.dropoff = some dr →
      ((JsNum.div a T).gt 0 && (JsNum.div a T).lt 1) = true →
      P (fuelMarker pk dr (JsNum.div a T) j i)) :
    ∀ (ps : List DayPlan) (i : Nat) (st : ℚ × List Marker), (∀ m ∈ st.2, P m) →
      ∀ m ∈ (forEachDay c T n ps i st).2, P m := by
  intro ps
  induction ps with
  | nil => intro i st h; simpa [forEachDay] using h
  | cons p ps ih =>
    intro i st h
    rw [forEachDay]
    apply ih
    simp only [dayStep]
    apply fuelLoop_forall P c T hfuel
    intro m hm
    rcases mem_restStop c T n i st.1 _ st.2 m hm with h1 | ⟨pk, dr, hp, hd, hg, rfl⟩
    · exact h m h1
    · exact hrest pk dr _ i hp hd hg

/-- Every stop marker in the marker list was built by `restMarker` or
`fuelMarker` from a quotient by the total distance that is a finite fraction
strictly between 0 and 1. -/
theorem stop_markers_built (trip : Option Trip) (c : Coordinates) (rd : RouteData) :
    ∀ m ∈ markers trip (some c) (some rd), isStop m = true →
      ∃ pk dr a f, c.pickup = some pk ∧ c.dropoff = some dr ∧
        JsNum.div a (totalDistanceOf rd) = JsNum.fin f ∧ 0 < f ∧ f < 1 ∧
        ((∃ i, m = restMarker pk dr (JsNum.fin f) i) ∨
          (∃ j i, m = fuelMarker pk dr (JsNum.fin f) j i)) := by
  simp only [markers]
  apply forEachDay_forall
  · intro pk dr a i hp hd hg _
    obtain ⟨f, hf, h0, h1⟩ := JsNum.guard_fin _ hg
    exact ⟨pk, dr, a, f, hp, hd, hf, h0, h1, Or.inl ⟨i, by rw [hf]⟩⟩
  · intro pk dr a j i hp hd hg _
    obtain ⟨f, hf, h0, h1⟩ := JsNum.guard_fin _ hg
    exact ⟨pk, dr, a, f, hp, hd, hf, h0, h1, Or.inr ⟨j, i, by rw [hf]⟩⟩
  · intro m hm hs
    rw [locationMarkers_not_stop trip (some c) m hm] at hs
    exact absurd hs (by decide)

/-- With a zero total distance the loop leaves the marker list unchanged. -/
theorem forEachDay_zero (c : Coordinates) (n : Nat) :
    ∀ (ps : List DayPlan) (i : Nat) (st : ℚ × List Marker),
      (forEachDay c 0 n ps i st).2 = st.2 := by
  intro ps
  induction ps with
  | nil => intro i st; rfl
  | cons p ps ih =>
    intro i st
    rw [forEachDay, ih]
    simp only [dayStep]
    have hrest : ∀ d, restStop c 0 n i st.1 d st.2 = st.2 := by
      intro d
      unfold restStop
      simp only [JsNum.guard_div_zero]
      rcases c.pickup with _ | pk <;> rcases c.dropoff with _ | dr <;> simp
    have hfuel : ∀ (d : ℚ) (fs : Nat) (js : List Nat) (ms : List Marker),
        js.foldl (fuelStop c 0 i st.1 d fs) ms = ms := by
      intro d fs js
      induction js with
      | nil => intro ms; rfl
      | cons j js ihj =>
        intro ms
        rw [List.foldl_cons, ihj]
        unfold fuelStop
        simp only [JsNum.guard_div_zero]
        rcases c.pickup with _ | pk <;> rcases c.dropoff with _ | dr <;> simp
    rw [hfuel, hrest]

/-- The marker list has stop markers only when both `coordinates` and
`routeData` are present. -/
theorem stop_needs_props (trip : Option Trip) (coordinates : Option Coordinates)
    (routeData : Option RouteData) (m : Marker)
    (hm : m ∈ markers trip coordinates routeData) (hs : isStop m = true) :
    ∃ c rd, coordinates = some c ∧ routeData = some rd := by
  rcases coordinates with _ | c
  · rcases routeData with _ | rd <;>
    · simp only [markers] at hm
      rw [locationMarkers_not_stop trip none m hm] at hs
      exact absurd hs (by decide)
  · rcases routeData with _ | rd
    · simp only [markers] at hm
      rw [locationMarkers_not_stop trip (some c) m hm] at hs
      exact absurd hs (by decide)
    · exact ⟨c, rd, rfl, rfl⟩

/-- A point `a + (b - a) * f` with `0 < f < 1` lies between `a` and `b`,
strictly when `a` and `b` differ. -/
theorem lerp_between (a b f : ℚ) (h0 : 0 < f) (h1 : f < 1) :
    min a b ≤ a + (b - a) * f ∧ a + (b - a) * f ≤ max a b ∧
    (a ≠ b → min a b < a + (b - a) * f ∧ a + (b - a) * f < max a b ∧
      a + (b - a) * f ≠ a ∧ a + (b - a) * f ≠ b) := by
  rcases lt_trichotomy a b with hab | hab | hab
  · have hmin : min a b = a := min_eq_left hab.le
    have hmax : max a b = b := max_eq_right hab.le
    rw [hmin, hmax]
    have e1 : 0 < (b - a) * f := mul_pos (by linarith) h0
    have e2 : 0 < (b - a) * (1 - f) := mul_pos (by linarith) (by linarith)
    refine ⟨by linarith, by linarith, fun _ => ⟨by linarith, by linarith, ?_, ?_⟩⟩
    · intro h; linarith
    · intro h; linarith
  · subst hab
    simp
  · have hmin : min a b = b := min_eq_right hab.le
    have hmax : max a b = a := max_eq_left hab.le
    rw [hmin, hmax]
    have e1 : 0 < (a - b) * f := mul_pos (by linarith) h0
    have e2 : 0 < (a - b) * (1 - f) := mul_pos (by linarith) (by linarith)
    refine ⟨by linarith, by linarith, fun _ => ⟨by linarith, by linarith, ?_, ?_⟩⟩
    · intro h; linarith
    · intro h; linarith

/-- C4: every rest-stop or fuel-stop marker in the marker list was placed for
a cumulative-distance fraction `f = a / totalDistance` (a finite quotient by a
non-zero total), with pickup `(lat0, lng0)` and dropoff `(lat1, lng1)` known,
and its position is exactly
`[lat0 + (lat1 - lat0) * f, lng0 + (lng1 - lng0) * f]`. -/
theorem stop_position_interpolated (trip : Option Trip) (coordinates : Option Coordinates)
    (routeData : Option RouteData) (m : Marker)
    (hm : m ∈ markers trip coordinates routeData) (hs : isStop m = true) :
    ∃ c rd pk dr a f, coordinates = some c ∧ routeData = some rd ∧
      c.pickup = some pk ∧ c.dropoff = some dr ∧
      totalDistanceOf rd ≠ 0 ∧ f = a / totalDistanceOf rd ∧
      JsNum.div a (totalDistanceOf rd) = JsNum.fin f ∧
      ((∃ i, m = restMarker pk dr (JsNum.fin f) i) ∨
        (∃ j i, m = fuelMarker pk dr (JsNum.fin f) j i)) ∧
      m.position =
        (JsNum.fin (pk.1 + (dr.1 - pk.1) * f), JsNum.fin (pk.2 + (dr.2 - pk.2) * f)) := by
  obtain ⟨c, rd, rfl, rfl⟩ := stop_needs_props trip coordinates routeData m hm hs
  obtain ⟨pk, dr, a, f, hp, hd, hf, -, -, hb⟩ := stop_markers_built trip c rd m hm hs
  obtain ⟨hT, hq⟩ := JsNum.div_eq_fin _ _ _ hf
  refine ⟨c, rd, pk, dr, a, f, rfl, rfl, hp, hd, hT, hq, hf, hb, ?_⟩
  rcases hb with ⟨i, rfl⟩ | ⟨j, i, rfl⟩ <;> rfl

/-- C4 on a two-day, 600-mile route from (40, -100) to (42, -90): the rest
stop after day 1 sits at fraction 1/2, that is at (41, -95). -/
theorem stop_position_interpolated_witness :
    ∃ c rd pk dr a f,
      some (⟨none, some (40, -100), some (42, -90)⟩ : Coordinates) = some c ∧
      some (⟨some ⟨some 600⟩, some ⟨some [⟨some 300, some 1⟩, ⟨some 300, none⟩]⟩⟩ : RouteData)
        = some rd ∧
      c.pickup = some pk ∧ c.dropoff = some dr ∧
      totalDistanceOf rd ≠ 0 ∧ f = a / totalDistanceOf rd ∧
      JsNum.div a (totalDistanceOf rd) = JsNum.fin f ∧
      ((∃ i, restMarker (40, -100) (42, -90) (JsNum.fin (1 / 2)) 0
          = restMarker pk dr (JsNum.fin f) i) ∨
        (∃ j i, restMarker (40, -100) (42, -90) (JsNum.fin (1 / 2)) 0
          = fuelMarker pk dr (JsNum.fin f) j i)) ∧
      (restMarker (40, -100) (42, -90) (JsNum.fin (1 / 2)) 0).position =
        (JsNum.fin (pk.1 + (dr.1 - pk.1) * f), JsNum.fin (pk.2 + (dr.2 - pk.2) * f)) :=
  stop_position_interpolated none
    (some ⟨none, some (40, -100), some (42, -90)⟩)
    (some ⟨some ⟨some 600⟩, some ⟨some [⟨some 300, some 1⟩, ⟨some 300, none⟩]⟩⟩)
    (restMarker (40, -100) (42, -90) (JsNum.fin (1 / 2)) 0)
    (by
      simp [markers, locationMarkers, forEachDay, dayStep, restStop, fuelStop, totalDistanceOf,
        hosPlansOf, JsNum.div, JsNum.gt, JsNum.lt, List.range, List.range.loop]
      norm_num)
    (by simp [isStop, restMarker])

/-- Every location marker has one of the icons `truck`, `pickup`, `dropoff`. -/
theorem locationMarkers_icon (trip : Option Trip) (coordinates : Option Coordinates) :
    ∀ m ∈ locationMarkers trip coordinates,
      m.icon = "truck" ∨ m.icon = "pickup" ∨ m.icon = "dropoff" := by
  intro m hm
  unfold locationMarkers at hm
  rcases coordinates with _ | c
  · rcases trip with _ | t
    · simp at hm
    · simp only [List.mem_append] at hm
      rcases hm with (hm | hm) | hm <;> split at hm <;> simp at hm <;> subst hm <;> simp
  · simp only [List.mem_append] at hm
    rcases hm with (hm | hm) | hm <;> split at hm <;> simp at hm <;> subst hm <;> simp

/-- C5: when `combined_route.distance_miles` is missing or 0, then for every
list of daily plans and any coordinates the marker list is exactly the list of
location markers: it contains no rest-stop and no fuel-stop marker, every marker
has one of the icons truck, pickup, dropoff, and no quotient by the zero total
passes the placement test. -/
theorem no_stops_without_distance (trip : Option Trip) (coordinates : Option Coordinates)
    (rd : RouteData)
    (h : rd.combined_route.bind CombinedRoute.distance_miles = none ∨
      rd.combined_route.bind CombinedRoute.distance_miles = some 0) :
    markers trip coordinates (some rd) = locationMarkers trip coordinates ∧
    (∀ m ∈ markers trip coordinates (some rd),
      isStop m = false ∧ (m.icon = "truck" ∨ m.icon = "pickup" ∨ m.icon = "dropoff")) ∧
    (∀ a : ℚ, ((JsNum.div a (totalDistanceOf rd)).gt 0 &&
      (JsNum.div a (totalDistanceOf rd)).lt 1) = false) := by
  have hT : totalDistanceOf rd = 0 := by
    unfold totalDistanceOf
    rcases h with h | h <;> rw [h] <;> rfl
  have hmk : markers trip coordinates (some rd) = locationMarkers trip coordinates := by
    rcases coordinates with _ | c
    · rfl
    · simp only [markers, hT]
      rw [forEachDay_zero]
  refine ⟨hmk, ?_, ?_⟩
  · intro m hm
    rw [hmk] at hm
    exact ⟨locationMarkers_not_stop _ _ m hm, locationMarkers_icon _ _ m hm⟩
  · intro a
    rw [hT]
    exact JsNum.guard_div_zero a

/-- C5 on a route with total distance 0 and two daily plans with fuel stops. -/
theorem no_stops_without_distance_witness :
    markers none (some ⟨none, some (40, -100), some (42, -90)⟩)
        (some ⟨some ⟨some 0⟩, some ⟨some [⟨some 300, some 1⟩, ⟨some 300, some 2⟩]⟩⟩) =
      locationMarkers none (some ⟨none, some (40, -100), some (42, -90)⟩) :=
  (no_stops_without_distance none (some ⟨none, some (40, -100), some (42, -90)⟩)
    ⟨some ⟨some 0⟩, some ⟨some [⟨some 300, some 1⟩, ⟨some 300, some 2⟩]⟩⟩
    (Or.inr rfl)).1

/-- Known binary64 values reproduced by the rounding model: the literal 0.1,
`0.1 + 0.2 = 0.30000000000000004` (not the literal 0.3), `1 / 3`, the tie
`2^53 + 1` rounded to the even neighbour `2^53`, and `0.1 / 0.8 = 0.125`. -/
theorem F64.known_values :
    F64.ofDecimal 1 1 = ⟨3602879701896397, -55⟩ ∧
    F64.add (F64.ofDecimal 1 1) (F64.ofDecimal 2 1) = ⟨1351079888211149, -52⟩ ∧
    F64.ofDecimal 3 1 = ⟨5404319552844595, -54⟩ ∧
    F64.div (F64.ofInt 1) (F64.ofInt 3) = ⟨6004799503160661, -54⟩ ∧
    F64.add (F64.ofInt (2 ^ 53)) (F64.ofInt 1) = F64.ofInt (2 ^ 53) ∧
    F64.div (F64.ofDecimal 1 1) (F64.ofDecimal 8 1) = ⟨1, -3⟩ := by
  refine ⟨by decide, by decide, by decide, by decide, by decide, by decide⟩

/-- C7, failing instances. (1) Over exact arithmetic: with pickup and dropoff
at the same point (40, -100), a 100-mile total and two 50-mile days, the rest
stop after day 1 (fraction 1/2) is placed exactly on that point. (2) In the
binary64 arithmetic the code runs in: from (40, -100) to the distinct point
(44, -92), with an 800.1-mile total and days of 317.2, 482.9 and 0 miles, the
sum 317.2 + 482.9 divided by 800.1 is rounded to `1 - 2^-53`, passes
`progress > 0 && progress < 1`, and `40 + 4 * progress` and
`-100 + 8 * progress` are rounded to 44 and -92: the Day 2 rest stop is placed
exactly on the dropoff, although the exact fraction is 1 and the exact
computation places only the Day 1 rest stop. -/
theorem stop_on_endpoint_counterexample :
    (∃ m ∈ markers none (some ⟨none, some (40, -100), some (40, -100)⟩)
        (some ⟨some ⟨some 100⟩, some ⟨some [⟨some 50, none⟩, ⟨some 50, none⟩]⟩⟩),
      isStop m = true ∧ m.position = pos (40, -100)) ∧
    (F64.div (F64.add (F64.add (F64.ofInt 0) (F64.ofDecimal 3172 1)) (F64.ofDecimal 4829 1))
        (F64.ofDecimal 8001 1) = ⟨2 ^ 53 - 1, -53⟩ ∧
      restStopsInDoubles (F64.ofInt 40, F64.ofInt (-100)) (F64.ofInt 44, F64.ofInt (-92))
          (F64.ofDecimal 8001 1) 3
          [F64.ofDecimal 3172 1, F64.ofDecimal 4829 1, F64.ofInt 0] 0 (F64.ofInt 0) =
        [(0, (⟨5852681293024819, -47⟩, ⟨-6813692658954701, -46⟩)),
         (1, (F64.ofInt 44, F64.ofInt (-92)))] ∧
      (F64.ofInt 40, F64.ofInt (-100)) ≠ (F64.ofInt 44, F64.ofInt (-92)) ∧
      (markers none (some ⟨none, some (40, -100), some (44, -92)⟩)
          (some ⟨some ⟨some (8001 / 10)⟩,
            some ⟨some [⟨some (3172 / 10), none⟩, ⟨some (4829 / 10), none⟩,
              ⟨some 0, none⟩]⟩⟩)).filter isRest =
        [restMarker (40, -100) (44, -92) (JsNum.fin (3172 / 8001)) 0]) := by
  refine ⟨⟨restMarker (40, -100) (40, -100) (JsNum.fin (1 / 2)) 0, ?_, ?_, ?_⟩,
    by decide, by decide, by decide, ?_⟩
  · simp [markers, locationMarkers, forEachDay, dayStep, restStop, totalDistanceOf,
      hosPlansOf, JsNum.div, JsNum.gt, JsNum.lt]
    norm_num
  · simp [isStop, restMarker]
  · simp [restMarker, interpolate, pos, JsNum.add, JsNum.mul]
  · simp [markers, locationMarkers, forEachDay, dayStep, restStop, totalDistanceOf,
      hosPlansOf, JsNum.div, JsNum.gt, JsNum.lt, isRest, List.filter_cons]
    norm_num
    simp [List.filter_cons, isRest, restMarker]

/-- C7, amended: over exact rational arithmetic, every rest-stop or
fuel-stop marker in the marker list has a
cumulative-distance fraction `f` with `0 < f < 1`; its latitude lies between
the pickup and dropoff latitudes and its longitude between their longitudes,
strictly in any coordinate in which pickup and dropoff differ; and when pickup
and dropoff are distinct points the marker is on neither of them. -/
theorem stop_strictly_inside (trip : Option Trip) (coordinates : Option Coordinates)
    (routeData : Option RouteData) (m : Marker)
    (hm : m ∈ markers trip coordinates routeData) (hs : isStop m = true) :
    ∃ c rd pk dr f lat lng, coordinates = some c ∧ routeData = some rd ∧
      c.pickup = some pk ∧ c.dropoff = some dr ∧ 0 < f ∧ f < 1 ∧
      lat = pk.1 + (dr.1 - pk.1) * f ∧ lng = pk.2 + (dr.2 - pk.2) * f ∧
      m.position = (JsNum.fin lat, JsNum.fin lng) ∧
      min pk.1 dr.1 ≤ lat ∧ lat ≤ max pk.1 dr.1 ∧
      min pk.2 dr.2 ≤ lng ∧ lng ≤ max pk.2 dr.2 ∧
      (pk.1 ≠ dr.1 → min pk.1 dr.1 < lat ∧ lat < max pk.1 dr.1) ∧
      (pk.2 ≠ dr.2 → min pk.2 dr.2 < lng ∧ lng < max pk.2 dr.2) ∧
      (pk ≠ dr → m.position ≠ pos pk ∧ m.position ≠ pos dr) := by
  obtain ⟨c, rd, rfl, rfl⟩ := stop_needs_props trip coordinates routeData m hm hs
  obtain ⟨pk, dr, a, f, hp, hd, hf, h0, h1, hb⟩ := stop_markers_built trip c rd m hm hs
  have hpos : m.position =
      (JsNum.fin (pk.1 + (dr.1 - pk.1) * f), JsNum.fin (pk.2 + (dr.2 - pk.2) * f)) := by
    rcases hb with ⟨i, rfl⟩ | ⟨j, i, rfl⟩ <;> rfl
  obtain ⟨a1, a2, a3⟩ := lerp_between pk.1 dr.1 f h0 h1
  obtain ⟨b1, b2, b3⟩ := lerp_between pk.2 dr.2 f h0 h1
  refine ⟨c, rd, pk, dr, f, _, _, rfl, rfl, hp, hd, h0, h1, rfl, rfl, hpos, a1, a2, b1, b2,
    fun h => ⟨(a3 h).1, (a3 h).2.1⟩, fun h => ⟨(b3 h).1, (b3 h).2.1⟩, ?_⟩
  intro hne
  have hcoord : pk.1 ≠ dr.1 ∨ pk.2 ≠ dr.2 := by
    by_contra hcon
    push_neg at hcon
    exact hne (Prod.ext hcon.1 hcon.2)
  rw [hpos]
  simp only [pos, ne_eq, Prod.mk.injEq, JsNum.fin.injEq, not_and_or]
  rcases hcoord with h | h
  · exact ⟨Or.inl (a3 h).2.2.1, Or.inl (a3 h).2.2.2⟩
  · exact ⟨Or.inr (b3 h).2.2.1, Or.inr (b3 h).2.2.2⟩

/-- C7 amended, on a two-day, 600-mile route from (40, -100) to (42, -90):
the rest stop after day 1 has a fraction strictly between 0 and 1 and lies
strictly inside the segment. -/
theorem stop_strictly_inside_witness :
    ∃ c rd pk dr f lat lng,
      some (⟨none, some (40, -100), some (42, -90)⟩ : Coordinates) = some c ∧
      some (⟨some ⟨some 600⟩, some ⟨some [⟨some 300, some 1⟩, ⟨some 300, none⟩]⟩⟩ : RouteData)
        = some rd ∧
      c.pickup = some pk ∧ c.dropoff = some dr ∧ 0 < f ∧ f < 1 ∧
      lat = pk.1 + (dr.1 - pk.1) * f ∧ lng = pk.2 + (dr.2 - pk.2) * f ∧
      (restMarker (40, -100) (42, -90) (JsNum.fin (1 / 2)) 0).position
        = (JsNum.fin lat, JsNum.fin lng) ∧
      min pk.1 dr.1 ≤ lat ∧ lat ≤ max pk.1 dr.1 ∧
      min pk.2 dr.2 ≤ lng ∧ lng ≤ max pk.2 dr.2 ∧
      (pk.1 ≠ dr.1 → min pk.1 dr.1 < lat ∧ lat < max pk.1 dr.1) ∧
      (pk.2 ≠ dr.2 → min pk.2 dr.2 < lng ∧ lng < max pk.2 dr.2) ∧
      (pk ≠ dr → (restMarker (40, -100) (42, -90) (JsNum.fin (1 / 2)) 0).position ≠ pos pk ∧
        (restMarker (40, -100) (42, -90) (JsNum.fin (1 / 2)) 0).position ≠ pos dr) :=
  stop_strictly_inside none
    (some ⟨none, some (40, -100), some (42, -90)⟩)
    (some ⟨some ⟨some 600⟩, some ⟨some [⟨some 300, some 1⟩, ⟨some 300, none⟩]⟩⟩)
    (restMarker (40, -100) (42, -90) (JsNum.fin (1 / 2)) 0)
    (by
      simp [markers, locationMarkers, forEachDay, dayStep, restStop, fuelStop, totalDistanceOf,
        hosPlansOf, JsNum.div, JsNum.gt, JsNum.lt, List.range, List.range.loop]
      norm_num)
    (by simp [isStop, restMarker])

/-- The fuel-stop loop adds no rest-stop marker. -/
theorem fuelLoop_filter_rest (c : Coordinates) (T : ℚ) (i : Nat) (acc d : ℚ) (fs : Nat) :
    ∀ (js : List Nat) (ms : List Marker),
      (js.foldl (fuelStop c T i acc d fs) ms).filter isRest = ms.filter isRest := by
  intro js
  induction js with
  | nil => intro ms; rfl
  | cons j js ih =>
    intro ms
    rw [List.foldl_cons, ih]
    unfold fuelStop
    rcases c.pickup with _ | pk <;> rcases c.dropoff with _ | dr <;> simp only []
    split_ifs
    · rw [List.filter_append]
      simp [isRest, fuelMarker]
    · rfl

/-- The rest-stop step adds exactly the marker of the specification, if any. -/
theorem restStop_filter_rest (c : Coordinates) (T : ℚ) (n i : Nat) (acc d : ℚ)
    (ms : List Marker) :
    (restStop c T n i acc d ms).filter isRest =
      ms.filter isRest ++
        (if i + 1 < n then (restStopSpec c T i (acc + d)).toList else []) := by
  unfold restStop restStopSpec
  have hiff : ((i : Int) < (n : Int) - 1) ↔ i + 1 < n := by omega
  by_cases h : i + 1 < n
  · rw [if_pos (hiff.mpr h), if_pos h]
    rcases c.pickup with _ | pk <;> rcases c.dropoff with _ | dr <;> simp only []
    · simp
    · simp
    · simp
    · split_ifs
      · rw [List.filter_append]
        simp [isRest, restMarker]
      · simp
  · rw [if_neg (fun h' => h (hiff.mp h')), if_neg h]
    simp

/-- The rest-stop markers added by the loop from day `i` on, when `ps` are the
remaining days of an `n`-day plan. -/
theorem forEachDay_filter_rest (c : Coordinates) (T : ℚ) (n : Nat) :
    ∀ (ps : List DayPlan) (i : Nat) (st : ℚ × List Marker), i + ps.length = n →
      (forEachDay c T n ps i st).2.filter isRest =
        st.2.filter isRest ++
          (List.range (ps.length - 1)).filterMap
            (fun k => restStopSpec c T (i + k)
              (st.1 + ((ps.take (k + 1)).map dayDistanceOf).sum)) := by
  intro ps
  induction ps with
  | nil => intro i st _; simp [forEachDay]
  | cons p ps ih =>
    intro i st hlen
    rw [forEachDay, ih (i + 1) _ (by simp only [List.length_cons] at hlen; omega)]
    simp only [dayStep]
    rw [fuelLoop_filter_rest, restStop_filter_rest, List.append_assoc]
    congr 1
    rcases ps with _ | ⟨q, qs⟩
    · have hn : ¬ (i + 1 < n) := by simp only [List.length_cons, List.length_nil] at hlen; omega
      simp [hn]
    · have hn : i + 1 < n := by simp only [List.length_cons] at hlen; omega
      simp only [hn, if_true, List.length_cons, Nat.add_sub_cancel]
      rw [List.range_succ_eq_map (qs.length), List.filterMap_cons, List.filterMap_map]
      have h0 : restStopSpec c T (i + 0)
          (st.1 + ((List.take (0 + 1) (p :: q :: qs)).map dayDistanceOf).sum) =
          restStopSpec c T i (st.1 + p.distance_miles.getD 0) := by
        simp [dayDistanceOf]
      have hk : (fun k => restStopSpec c T (i + 1 + k)
            (st.1 + p.distance_miles.getD 0 + ((List.take (k + 1) (q :: qs)).map dayDistanceOf).sum))
          = ((fun k => restStopSpec c T (i + k)
            (st.1 + ((List.take (k + 1) (p :: q :: qs)).map dayDistanceOf).sum)) ∘ Nat.succ) := by
        funext k
        simp only [Function.comp, Nat.succ_eq_add_one, List.take_succ_cons, List.map_cons,
          List.sum_cons, dayDistanceOf]
        rw [show i + 1 + k = i + (k + 1) by omega, add_assoc]
      rw [h0, hk]
      cases restStopSpec c T i (st.1 + p.distance_miles.getD 0) <;> simp

/-- C6: for the `n` daily plans of a route with total distance `T`, the
rest-stop markers in the marker list are exactly, in day order, the rest stops
of the days `i < n - 1`, each computed from the fraction
`(d_0 + ... + d_i) / T` (a missing `distance_miles` counting as 0) and placed
when that fraction is strictly between 0 and 1 and pickup and dropoff are
known; the marker of day index `i` is labelled `Day i+1`. The final day has no
rest stop: at most `n - 1` rest-stop markers are placed, and none for a
single-day or empty plan. -/
theorem rest_stops_characterised (trip : Option Trip) (c : Coordinates) (rd : RouteData) :
    (markers trip (some c) (some rd)).filter isRest =
      (List.range ((hosPlansOf rd).length - 1)).filterMap
        (fun i => restStopSpec c (totalDistanceOf rd) i
          ((((hosPlansOf rd).take (i + 1)).map dayDistanceOf).sum)) ∧
    ((markers trip (some c) (some rd)).filter isRest).length ≤ (hosPlansOf rd).length - 1 ∧
    ((hosPlansOf rd).length ≤ 1 → (markers trip (some c) (some rd)).filter isRest = []) ∧
    (∀ (i : Nat) (a : ℚ) (m : Marker), restStopSpec c (totalDistanceOf rd) i a = some m →
      m.icon = "rest" ∧
      m.popup = "🛏️ Mandatory Rest Stop - Day " ++ toString (i + 1)
        ++ "\n10-hour off-duty period" ∧
      ∃ pk dr, c.pickup = some pk ∧ c.dropoff = some dr ∧
        m = restMarker pk dr (JsNum.div a (totalDistanceOf rd)) i) := by
  have hchar : (markers trip (some c) (some rd)).filter isRest =
      (List.range ((hosPlansOf rd).length - 1)).filterMap
        (fun i => restStopSpec c (totalDistanceOf rd) i
          ((((hosPlansOf rd).take (i + 1)).map dayDistanceOf).sum)) := by
    simp only [markers]
    rw [forEachDay_filter_rest c (totalDistanceOf rd) (hosPlansOf rd).length (hosPlansOf rd) 0
      (0, locationMarkers trip (some c)) (by omega)]
    have hloc : (locationMarkers trip (some c)).filter isRest = [] := by
      rw [List.filter_eq_nil_iff]
      intro m hm
      have h := locationMarkers_icon trip (some c) m hm
      rcases h with h | h | h <;> simp [isRest, h]
    simp only [hloc, List.nil_append, zero_add]
  refine ⟨hchar, ?_, ?_, ?_⟩
  · rw [hchar]
    calc ((List.range ((hosPlansOf rd).length - 1)).filterMap _).length
        ≤ (List.range ((hosPlansOf rd).length - 1)).length := List.length_filterMap_le _ _
      _ = (hosPlansOf rd).length - 1 := List.length_range _
  · intro hn
    rw [hchar, show (hosPlansOf rd).length - 1 = 0 by omega]
    rfl
  · intro i a m hm
    unfold restStopSpec at hm
    rcases hp : c.pickup with _ | pk <;> rcases hd : c.dropoff with _ | dr <;>
      simp only [hp, hd] at hm
    · exact absurd hm (by simp)
    · exact absurd hm (by simp)
    · exact absurd hm (by simp)
    · split_ifs at hm
      · have hm' : restMarker pk dr (JsNum.div a (totalDistanceOf rd)) i = m :=
          Option.some.inj hm
        subst hm'
        exact ⟨rfl, rfl, pk, dr, rfl, rfl, rfl⟩

/-- C6 on a three-day, 600-mile plan of 100, 200 and 300 miles from
(40, -100) to (46, -88): exactly two rest-stop markers, after day 1 at fraction
100/600 and after day 2 at fraction 300/600, labelled Day 1 and Day 2 and
placed at (41, -98) and (43, -94); the final day has none. -/
theorem rest_stops_characterised_witness :
    (markers none (some ⟨none, some (40, -100), some (46, -88)⟩)
        (some ⟨some ⟨some 600⟩,
          some ⟨some [⟨some 100, none⟩, ⟨some 200, none⟩, ⟨some 300, none⟩]⟩⟩)).filter isRest =
      [restMarker (40, -100) (46, -88) (JsNum.fin (1 / 6)) 0,
       restMarker (40, -100) (46, -88) (JsNum.fin (1 / 2)) 1] ∧
    (restMarker (40, -100) (46, -88) (JsNum.fin (1 / 6)) 0).popup =
      "🛏️ Mandatory Rest Stop - Day 1\n10-hour off-duty period" ∧
    (restMarker (40, -100) (46, -88) (JsNum.fin (1 / 2)) 1).popup =
      "🛏️ Mandatory Rest Stop - Day 2\n10-hour off-duty period" ∧
    (restMarker (40, -100) (46, -88) (JsNum.fin (1 / 6)) 0).position = pos (41, -98) ∧
    (restMarker (40, -100) (46, -88) (JsNum.fin (1 / 2)) 1).position = pos (43, -94) :=
  ⟨(rest_stops_characterised none ⟨none, some (40, -100), some (46, -88)⟩
      ⟨some ⟨some 600⟩,
        some ⟨some [⟨some 100, none⟩, ⟨some 200, none⟩, ⟨some 300, none⟩]⟩⟩).1.trans
      (by
        simp [hosPlansOf, totalDistanceOf, restStopSpec, dayDistanceOf, JsNum.div, JsNum.gt,
          JsNum.lt, List.range, List.range.loop, List.filterMap_cons]
        norm_num),
    by decide, by decide,
    by simp [restMarker, interpolate, pos, JsNum.add, JsNum.mul]; norm_num,
    by simp [restMarker, interpolate, pos, JsNum.add, JsNum.mul]; norm_num⟩

end MapView

/-! ## Properties of TripDetails.js -/

namespace TripDetails

/-- The cycle warning is in the warnings block iff more than 70 hours are used. -/
theorem mem_warnings_cycle (trip : Trip) (logs : List Log) :
    Warning.cycleLimitExceeded trip.current_cycle_used ∈ warnings trip logs ↔
      trip.current_cycle_used > 70 := by
  unfold warnings
  simp only [List.mem_append]
  constructor
  · rintro (((h | h) | h) | h)
    · split_ifs at h <;> simp at h
    · split_ifs at h <;> simp at h
    · split_ifs at h with hc
      · exact hc
      · simp at h
    · split_ifs at h <;> simp at h
  · intro hc
    exact Or.inl (Or.inr (by simp [hc]))

/-- C9: for every loaded trip (not loading, no fetch error), whatever its
`current_cycle_used`, TripDetails renders the details view of that trip, and
the warning `70-hour cycle limit exceeded` is among the warnings it shows if
and only if `current_cycle_used > 70`; in particular a trip with exactly 70
hours used is not flagged, and a trip with more than 70 hours is displayed with
the flag. -/
theorem cycle_warning_iff (st : State) (trip : Trip)
    (hl : st.loading = false) (he : st.error = "") (ht : st.trip = some trip) :
    ∃ ws, render st = View.details trip (70 - trip.current_cycle_used) ws ∧
      (∀ used, Warning.cycleLimitExceeded used ∈ ws → used = trip.current_cycle_used) ∧
      (Warning.cycleLimitExceeded trip.current_cycle_used ∈ ws ↔ trip.current_cycle_used > 70) ∧
      (trip.current_cycle_used = 70 →
        Warning.cycleLimitExceeded trip.current_cycle_used ∉ ws) := by
  refine ⟨warnings trip st.logs, ?_, ?_, mem_warnings_cycle trip st.logs, ?_⟩
  · simp [render, hl, he, ht]
  · intro used hu
    unfold warnings at hu
    simp only [List.mem_append] at hu
    rcases hu with ((h | h) | h) | h <;> split_ifs at h <;> simp at h
    exact h
  · intro h70 hmem
    have := (mem_warnings_cycle trip st.logs).mp hmem
    rw [h70] at this
    exact absurd this (lt_irrefl _)

/-- C9 on a loaded trip with 75 cycle hours used: displayed, and flagged. -/
theorem cycle_warning_iff_witness :
    ∃ ws, render ⟨some ⟨75⟩, [], false, ""⟩ = View.details ⟨75⟩ (70 - 75) ws ∧
      Warning.cycleLimitExceeded 75 ∈ ws :=
  match cycle_warning_iff ⟨some ⟨75⟩, [], false, ""⟩ ⟨75⟩ rfl rfl rfl with
  | ⟨ws, hr, _, hiff, _⟩ => ⟨ws, hr, hiff.mpr (by norm_num)⟩

end TripDetails

/-! ## Properties of the violation displays (LogSheet.js, TripForm.js) -/

namespace TripForm

/-- Numbering a list and then forgetting the numbers is mapping over the list. -/
theorem map_enumFrom_snd {α β : Type} (f : α → β) :
    ∀ (l : List α) (n : Nat), (l.enumFrom n).map (fun iv => f iv.2) = l.map f := by
  intro l
  induction l with
  | nil => intro n; rfl
  | cons a l ih => intro n; simp [List.enumFrom_cons, ih]

/-- The texts rendered for one log are `Day d: v` for its violations, in order. -/
theorem logViolationItems_text (index : Nat) (log : DailyLog) :
    (logViolationItems index log).map ViolationItem.text =
      (log.violations.getD []).map
        (fun v => "Day " ++ jsxNat log.day_of_trip ++ ": " ++ v) := by
  unfold logViolationItems
  rcases log.violations with _ | vs
  · rfl
  · simp only [List.map_map, Option.getD_some, List.enum]
    exact map_enumFrom_snd (fun v => "Day " ++ jsxNat log.day_of_trip ++ ": " ++ v) vs 0

/-- The texts of the summary items, for any start of the log numbering. -/
theorem enumFrom_items_text :
    ∀ (logs : List DailyLog) (n : Nat),
      ((logs.enumFrom n).flatMap (fun il => logViolationItems il.1 il.2)).map
          ViolationItem.text =
        logs.flatMap (fun log => (log.violations.getD []).map
          (fun v => "Day " ++ jsxNat log.day_of_trip ++ ": " ++ v)) := by
  intro logs
  induction logs with
  | nil => intro n; rfl
  | cons log logs ih =>
    intro n
    simp only [List.enumFrom_cons, List.flatMap_cons, List.map_append, ih,
      logViolationItems_text]

/-- Some log passes `log.violations?.length > 0` iff some log has a non-empty
violation list. -/
theorem any_hasViolations_iff (logs : List DailyLog) :
    logs.any hasViolations = true ↔ ∃ log ∈ logs, ∃ v, log.violations = some v ∧ v ≠ [] := by
  rw [List.any_eq_true]
  constructor
  · rintro ⟨log, hl, hv⟩
    refine ⟨log, hl, ?_⟩
    unfold hasViolations at hv
    rcases hlv : log.violations with _ | v
    · rw [hlv] at hv; exact absurd hv (by simp)
    · rw [hlv] at hv
      refine ⟨v, rfl, ?_⟩
      rintro rfl
      simp at hv
  · rintro ⟨log, hl, v, hlv, hne⟩
    refine ⟨log, hl, ?_⟩
    unfold hasViolations
    rw [hlv]
    simpa [List.length_pos] using hne

end TripForm

/-- C11: no violation is dropped when displayed. For a daily log whose
violation list `v` is non-empty, `LogSheet` renders the violations section with
exactly the items of `v` in order (so `length v` items, the `k`-th being
`v[k]`), and the section is omitted only when `v` is absent or empty. For a
list of daily logs of which at least one has a violation, the TripForm warnings
block is present and its items are, in log order then violation order, one
entry `Day <day_of_trip>: <violation>` per violation of every log; the block is
part of the ELD summary of the route preview. -/
theorem violations_all_displayed :
    (∀ (dl : LogSheet.DailyLog) (v : List String), dl.violations = some v → v ≠ [] →
      ∃ sheet, LogSheet (some dl) = some sheet ∧ sheet.violations = some v) ∧
    (∀ (dl : LogSheet.DailyLog) (sheet : LogSheet.Sheet), LogSheet (some dl) = some sheet →
      (sheet.violations = none ↔ (dl.violations = none ∨ dl.violations = some []))) ∧
    (∀ logs : List TripForm.DailyLog,
      (∃ log ∈ logs, ∃ v, log.violations = some v ∧ v ≠ []) →
      ∃ items, TripForm.warningsBlock logs = some items ∧
        items.map TripForm.ViolationItem.text =
          logs.flatMap (fun log => (log.violations.getD []).map
            (fun v => "Day " ++ TripForm.jsxNat log.day_of_trip ++ ": " ++ v)) ∧
        items.length = (logs.map (fun log => (log.violations.getD []).length)).sum) ∧
    (∀ (r : TripForm.RoutePreview) (e : TripForm.EldLogs) (logs : List TripForm.DailyLog),
      e.daily_logs = some logs →
      ∃ summary, TripForm.previewEldSummary (some r) (some e) = some summary ∧
        summary.warnings = TripForm.warningsBlock logs) := by
  refine ⟨?_, ?_, ?_, ?_⟩
  · intro dl v hv hne
    refine ⟨_, rfl, ?_⟩
    simp only [LogSheet.violationsSection, hv]
    have : 0 < v.length := List.length_pos.mpr hne
    simp [this]
  · intro dl sheet hs
    have hs' := Option.some.inj hs
    subst hs'
    simp only [LogSheet.violationsSection]
    rcases dl.violations with _ | _ | ⟨x, xs⟩ <;> simp
  · intro logs hex
    have hany := (TripForm.any_hasViolations_iff logs).mpr hex
    have htext := TripForm.enumFrom_items_text logs 0
    refine ⟨TripForm.violationItems logs, by simp [TripForm.warningsBlock, hany], htext, ?_⟩
    have hlen := congrArg List.length htext
    rw [List.length_map] at hlen
    rw [show TripForm.violationItems logs =
      (logs.enumFrom 0).flatMap (fun il => TripForm.logViolationItems il.1 il.2) from rfl, hlen]
    rw [List.length_flatMap]
    congr 1
    apply List.map_congr_left
    intro log _
    simp
  · intro r e logs he
    refine ⟨{ total_days := e.total_days, warnings := TripForm.warningsBlock logs }, ?_, rfl⟩
    simp [TripForm.previewEldSummary, TripForm.eldSummary, he]

/-- C11 on two logs, day 1 with two violations and day 2 with none: the
warnings block lists the two entries of day 1 in order. -/
theorem violations_all_displayed_witness :
    ∃ items, TripForm.warningsBlock
        [⟨some 1, some ["Daily driving limit exceeded", "Insufficient rest period"]⟩,
         ⟨some 2, none⟩] = some items ∧
      items.map TripForm.ViolationItem.text =
        ["Day 1: Daily driving limit exceeded", "Day 1: Insufficient rest period"] :=
  match violations_all_displayed.2.2.1
      [⟨some 1, some ["Daily driving limit exceeded", "Insufficient rest period"]⟩,
       ⟨some 2, none⟩]
      ⟨_, List.mem_cons_self _ _, _, rfl, by decide⟩ with
  | ⟨items, hb, ht, _⟩ => ⟨items, hb, ht.trans (by decide)⟩

/-! ## Further properties of TripDetails.js -/

namespace TripDetails

/-- The driving warning is in the warnings block iff the driving hours summed
over all logs exceed the limit. -/
theorem mem_warnings_driving (trip : Trip) (logs : List Log) (total : ℚ) :
    Warning.drivingLimitExceeded total ∈ warnings trip logs ↔
      total = totalDrivingHours logs ∧ totalDrivingHours logs > dailyDrivingLimit := by
  unfold warnings
  simp only [List.mem_append]
  constructor
  · rintro (((h | h) | h) | h)
    · split_ifs at h with hc
      · simp only [List.mem_singleton, Warning.drivingLimitExceeded.injEq] at h
        exact ⟨h, hc⟩
      · simp at h
    · split_ifs at h <;> simp at h
    · split_ifs at h <;> simp at h
    · split_ifs at h <;> simp at h
  · rintro ⟨rfl, hc⟩
    exact Or.inl (Or.inl (Or.inl (by simp [hc])))

/-- The low-budget warning is in the warnings block iff the remaining budget
is below 10 and positive. -/
theorem mem_warnings_low (trip : Trip) (logs : List Log) :
    Warning.lessThanTenRemaining ∈ warnings trip logs ↔
      70 - trip.current_cycle_used < 10 ∧ 70 - trip.current_cycle_used > 0 := by
  unfold warnings
  simp only [List.mem_append]
  constructor
  · rintro (((h | h) | h) | h)
    · split_ifs at h <;> simp at h
    · split_ifs at h <;> simp at h
    · split_ifs at h <;> simp at h
    · split_ifs at h with hc
      · exact hc
      · simp at h
  · intro hc
    exact Or.inr (by simp [hc])

/-- C12, failing instance: for a trip with two daily logs of 6 driving hours
each, no day exceeds 11 hours, yet the warnings block contains the
`Daily driving limit exceeded` warning, printed for the total of 12 hours; in
general the warning is shown iff the driving hours summed over all logs of the
trip exceed 11. -/
theorem driving_warning_sums_days :
    (∀ log ∈ ([⟨some 6, none⟩, ⟨some 6, none⟩] : List Log), log.driving_hours.getD 0 ≤ 11) ∧
    Warning.drivingLimitExceeded 12 ∈ warnings ⟨0⟩ [⟨some 6, none⟩, ⟨some 6, none⟩] ∧
    (∀ (trip : Trip) (logs : List Log),
      (∃ total, Warning.drivingLimitExceeded total ∈ warnings trip logs) ↔
        totalDrivingHours logs > 11) := by
  refine ⟨?_, ?_, ?_⟩
  · intro log hl
    simp only [List.mem_cons, List.mem_singleton, List.not_mem_nil, or_false] at hl
    rcases hl with rfl | rfl <;> norm_num
  · rw [mem_warnings_driving]
    simp only [totalDrivingHours, dailyDrivingLimit, List.foldl_cons, List.foldl_nil,
      Option.getD_some]
    norm_num
  · intro trip logs
    constructor
    · rintro ⟨total, h⟩
      exact ((mem_warnings_driving trip logs total).mp h).2
    · intro h
      exact ⟨_, (mem_warnings_driving trip logs _).mpr ⟨rfl, h⟩⟩

/-- C18: for a loaded trip the remaining cycle budget shown is
`70 - current_cycle_used`; the `70-hour cycle limit exceeded` warning is shown
iff that budget is negative, the `Less than 10 hours remaining` warning iff the
budget is strictly between 0 and 10, that is iff `60 < used < 70`; the two are
never shown together, and at exactly 70 hours used neither is shown. -/
theorem cycle_budget_warnings (st : State) (trip : Trip)
    (hl : st.loading = false) (he : st.error = "") (ht : st.trip = some trip) :
    ∃ ws, render st = View.details trip (70 - trip.current_cycle_used) ws ∧
      ((∃ used, Warning.cycleLimitExceeded used ∈ ws) ↔ 70 - trip.current_cycle_used < 0) ∧
      (Warning.lessThanTenRemaining ∈ ws ↔
        (0 < 70 - trip.current_cycle_used ∧ 70 - trip.current_cycle_used < 10)) ∧
      (Warning.lessThanTenRemaining ∈ ws ↔
        (60 < trip.current_cycle_used ∧ trip.current_cycle_used < 70)) ∧
      ¬ ((∃ used, Warning.cycleLimitExceeded used ∈ ws) ∧ Warning.lessThanTenRemaining ∈ ws) ∧
      (trip.current_cycle_used = 70 →
        (¬ ∃ used, Warning.cycleLimitExceeded used ∈ ws) ∧
          Warning.lessThanTenRemaining ∉ ws) := by
  have hcyc : (∃ used, Warning.cycleLimitExceeded used ∈ warnings trip st.logs) ↔
      70 - trip.current_cycle_used < 0 := by
    constructor
    · rintro ⟨used, hu⟩
      have hu' : used = trip.current_cycle_used := by
        unfold warnings at hu
        simp only [List.mem_append] at hu
        rcases hu with ((h | h) | h) | h <;> split_ifs at h <;> simp at h
        exact h
      rw [hu'] at hu
      have := (mem_warnings_cycle trip st.logs).mp hu
      linarith
    · intro h
      exact ⟨_, (mem_warnings_cycle trip st.logs).mpr (by linarith)⟩
  have hlow := mem_warnings_low trip st.logs
  refine ⟨warnings trip st.logs, by simp [render, hl, he, ht], hcyc, ?_, ?_, ?_, ?_⟩
  · rw [hlow]
    constructor <;> rintro ⟨a, b⟩ <;> exact ⟨b, a⟩
  · rw [hlow]
    constructor <;> rintro ⟨a, b⟩ <;> constructor <;> linarith
  · rintro ⟨h1, h2⟩
    have a := hcyc.mp h1
    have b := (hlow.mp h2).2
    linarith
  · intro h70
    constructor
    · intro h1
      have a := hcyc.mp h1
      rw [h70] at a
      norm_num at a
    · intro h2
      have b := (hlow.mp h2).2
      rw [h70] at b
      norm_num at b

/-- C18 on a loaded trip with 65 cycle hours used: the low-budget warning is
shown (remaining 5) and the exceeded warning is not. -/
theorem cycle_budget_warnings_witness :
    ∃ ws, render ⟨some ⟨65⟩, [], false, ""⟩ = View.details ⟨65⟩ (70 - 65) ws ∧
      Warning.lessThanTenRemaining ∈ ws ∧ ¬ ∃ used, Warning.cycleLimitExceeded used ∈ ws :=
  match cycle_budget_warnings ⟨some ⟨65⟩, [], false, ""⟩ ⟨65⟩ rfl rfl rfl with
  | ⟨ws, hr, hc, _, hlow, _, _⟩ =>
    ⟨ws, hr, hlow.mpr (by norm_num), fun h => absurd (hc.mp h) (by norm_num)⟩

/-- C20, failing instance: the element `<LogSheet trip={trip} logs={logs} />`
of the details view passes no `dailyLog` prop, so for every trip and every list
of logs, also a non-empty one, the component returns null and nothing is
rendered; the same logs' sheet is rendered where `dailyLog` is passed. -/
theorem logSheet_of_details_is_null :
    (∀ (trip : Trip) (logs : List Log), (logSheetProps trip logs).dailyLog = none ∧
      logSheet trip logs = none) ∧
    logSheet ⟨10⟩ [⟨some 5, some 6⟩] = none ∧
    (∀ (dl : LogSheet.DailyLog),
      (LogSheetElement { dailyLog := some dl, trip := none, logs := none }).isSome = true) := by
  exact ⟨fun _ _ => ⟨rfl, rfl⟩, rfl, fun _ => rfl⟩

end TripDetails

/-! ## Properties of TripForm.js -/

namespace TripForm

/-- C13: when at least one of the three location fields of the form is empty,
`calculateRoute` issues no request and calls no callback (no effect at all),
sets the error to `Please fill in all location fields first`, and leaves
`form`, `routePreview`, `eldLogs`, `calculating` and `loading` unchanged. -/
theorem calculateRoute_rejects_empty (api : Api) (today : String) (hasOnRouteCalculated : Bool)
    (st : State)
    (h : st.form.current_location = "" ∨ st.form.pickup_location = "" ∨
      st.form.dropoff_location = "") :
    (calculateRoute api today hasOnRouteCalculated st).2 = [] ∧
    (calculateRoute api today hasOnRouteCalculated st).1.error =
      "Please fill in all location fields first" ∧
    (calculateRoute api today hasOnRouteCalculated st).1.form = st.form ∧
    (calculateRoute api today hasOnRouteCalculated st).1.routePreview = st.routePreview ∧
    (calculateRoute api today hasOnRouteCalculated st).1.eldLogs = st.eldLogs ∧
    (calculateRoute api today hasOnRouteCalculated st).1.calculating = st.calculating ∧
    (calculateRoute api today hasOnRouteCalculated st).1.loading = st.loading := by
  unfold calculateRoute
  rw [if_pos h]
  exact ⟨rfl, rfl, rfl, rfl, rfl, rfl, rfl⟩

/-- C13 on a form whose dropoff location is empty, with endpoints that would
answer: nothing is requested and the error is set. -/
theorem calculateRoute_rejects_empty_witness :
    (calculateRoute ⟨fun _ => some ⟨none, none⟩, fun _ _ => some ⟨none, none⟩⟩ "2024-01-01" true
        ⟨⟨"Denver", "Omaha", "", 0⟩, false, false, "", none, none⟩).2 = [] ∧
    (calculateRoute ⟨fun _ => some ⟨none, none⟩, fun _ _ => some ⟨none, none⟩⟩ "2024-01-01" true
        ⟨⟨"Denver", "Omaha", "", 0⟩, false, false, "", none, none⟩).1.error =
      "Please fill in all location fields first" :=
  match calculateRoute_rejects_empty
      ⟨fun _ => some ⟨none, none⟩, fun _ _ => some ⟨none, none⟩⟩ "2024-01-01" true
      ⟨⟨"Denver", "Omaha", "", 0⟩, false, false, "", none, none⟩ (Or.inr (Or.inr rfl)) with
  | ⟨h1, h2, _⟩ => ⟨h1, h2⟩

end TripForm

/-! ## Properties of App.js -/

namespace App

/-- C14, failing instance: the first render of `App` at the route `/` shows
the two navigation links and the loading text of `Home`; none of these texts
matches `FMCSA Hours of Service Tracker` case-insensitively, and the same holds
at the two other routes, so the lookup of the repository's test finds no element. -/
theorem title_not_rendered :
    initialText "/" = ["🏠 Dashboard", "📊 ELD Logs", "Loading trips..."] ∧
    titleFound "/" = false ∧
    titleFound "/eld-logs" = false ∧
    titleFound "/trip/1" = false ∧
    matchesTitle "fmcsa hours of service tracker" = true := by
  refine ⟨by decide, by decide, by decide, by decide, by decide⟩

end App

/-! ## Properties of the fuel-stop placement (MapView.js) -/

namespace MapView

/-- A marker of the rest-stop specification is `restMarker` at the fraction
`a / T`, which passes the `(0, 1)` test. -/
theorem restStopSpec_some (c : Coordinates) (T : ℚ) (i : Nat) (a : ℚ) (m : Marker)
    (h : restStopSpec c T i a = some m) :
    ∃ pk dr, c.pickup = some pk ∧ c.dropoff = some dr ∧
      ((JsNum.div a T).gt 0 && (JsNum.div a T).lt 1) = true ∧
      m = restMarker pk dr (JsNum.div a T) i := by
  unfold restStopSpec at h
  rcases hp : c.pickup with _ | pk <;> rcases hd : c.dropoff with _ | dr <;>
    simp only [hp, hd] at h
  · exact absurd h (by simp)
  · exact absurd h (by simp)
  · exact absurd h (by simp)
  · split_ifs at h with hg
    · exact ⟨pk, dr, rfl, rfl, hg, (Option.some.inj h).symm⟩

/-- A marker of the rest-stop specification has the icon `rest`. -/
theorem restStopSpec_icon (c : Coordinates) (T : ℚ) (i : Nat) (a : ℚ) (m : Marker)
    (h : restStopSpec c T i a = some m) : m.icon = "rest" := by
  obtain ⟨pk, dr, -, -, -, rfl⟩ := restStopSpec_some c T i a m h
  rfl

/-- A marker of the fuel-stop specification is `fuelMarker` at the fraction
`(A + d * (i + 1) / (n + 1)) / T`, which passes the `(0, 1)` test. -/
theorem fuelStopSpec_some (c : Coordinates) (T : ℚ) (day : Nat) (A d : ℚ) (n i : Nat)
    (m : Marker) (h : fuelStopSpec c T day A d n i = some m) :
    ∃ pk dr, c.pickup = some pk ∧ c.dropoff = some dr ∧
      ((fuelFraction A d n i T).gt 0 && (fuelFraction A d n i T).lt 1) = true ∧
      m = fuelMarker pk dr (fuelFraction A d n i T) i day := by
  unfold fuelStopSpec at h
  rcases hp : c.pickup with _ | pk <;> rcases hd : c.dropoff with _ | dr <;>
    simp only [hp, hd] at h
  · exact absurd h (by simp)
  · exact absurd h (by simp)
  · exact absurd h (by simp)
  · split_ifs at h with hg
    · exact ⟨pk, dr, rfl, rfl, hg, (Option.some.inj h).symm⟩

/-- A marker of the fuel-stop specification has the icon `fuel`. -/
theorem fuelStopSpec_icon (c : Coordinates) (T : ℚ) (day : Nat) (A d : ℚ) (n i : Nat)
    (m : Marker) (h : fuelStopSpec c T day A d n i = some m) : m.icon = "fuel" := by
  obtain ⟨pk, dr, -, -, -, rfl⟩ := fuelStopSpec_some c T day A d n i m h
  rfl

/-- The rest-stop step appends the marker of the specification, if any. -/
theorem restStop_eq (c : Coordinates) (T : ℚ) (n i : Nat) (acc d : ℚ) (ms : List Marker) :
    restStop c T n i acc d ms =
      ms ++ (if i + 1 < n then (restStopSpec c T i (acc + d)).toList else []) := by
  unfold restStop restStopSpec
  have hiff : ((i : Int) < (n : Int) - 1) ↔ i + 1 < n := by omega
  by_cases h : i + 1 < n
  · rw [if_pos (hiff.mpr h), if_pos h]
    rcases c.pickup with _ | pk <;> rcases c.dropoff with _ | dr <;> simp only []
    · simp
    · simp
    · simp
    · split_ifs <;> simp
  · rw [if_neg (fun h' => h (hiff.mp h')), if_neg h]
    simp

/-- One fuel-stop step appends the marker of the specification, if any. -/
theorem fuelStop_eq (c : Coordinates) (T : ℚ) (i : Nat) (acc d : ℚ) (fs : Nat)
    (ms : List Marker) (j : Nat) :
    fuelStop c T i acc d fs ms j = ms ++ (fuelStopSpec c T i acc d fs j).toList := by
  unfold fuelStop fuelStopSpec fuelFraction
  rcases c.pickup with _ | pk <;> rcases c.dropoff with _ | dr <;> simp only []
  · simp
  · simp
  · simp
  · split_ifs <;> simp

/-- The fuel-stop loop appends the markers of the specification, in order. -/
theorem fuelLoop_eq (c : Coordinates) (T : ℚ) (i : Nat) (acc d : ℚ) (fs : Nat) :
    ∀ (js : List Nat) (ms : List Marker),
      js.foldl (fuelStop c T i acc d fs) ms = ms ++ js.filterMap (fuelStopSpec c T i acc d fs) := by
  intro js
  induction js with
  | nil => intro ms; simp
  | cons j js ih =>
    intro ms
    rw [List.foldl_cons, ih, fuelStop_eq, List.append_assoc]
    congr 1
    cases hj : fuelStopSpec c T i acc d fs j <;> simp [List.filterMap_cons, hj]

/-- One iteration of the loop: the distance grows by the day's distance, and
the markers appended are the day's rest stop (if any) followed by the day's
fuel stops. -/
theorem dayStep_eq (c : Coordinates) (T : ℚ) (n : Nat) (p : DayPlan) (i : Nat)
    (st : ℚ × List Marker) :
    dayStep c T n p i st =
      (st.1 + dayDistanceOf p,
        st.2 ++ ((if i + 1 < n then (restStopSpec c T i (st.1 + dayDistanceOf p)).toList else [])
          ++ (List.range (fuelStopsOf p)).filterMap
            (fuelStopSpec c T i st.1 (dayDistanceOf p) (fuelStopsOf p)))) := by
  simp only [dayStep, fuelLoop_eq, restStop_eq, dayDistanceOf, fuelStopsOf, List.append_assoc]

/-- Filtering the fuel stops of the specification for fuel markers keeps them all. -/
theorem filter_isFuel_fuelSpecs (c : Coordinates) (T : ℚ) (i : Nat) (A d : ℚ) (fs : Nat)
    (js : List Nat) :
    (js.filterMap (fuelStopSpec c T i A d fs)).filter isFuel =
      js.filterMap (fuelStopSpec c T i A d fs) := by
  rw [List.filter_eq_self]
  intro m hm
  obtain ⟨j, -, hj⟩ := List.mem_filterMap.mp hm
  simp [isFuel, fuelStopSpec_icon c T i A d fs j m hj]

/-- The rest stop of the specification is not a fuel marker. -/
theorem filter_isFuel_restSpec (c : Coordinates) (T : ℚ) (i : Nat) (a : ℚ) :
    (restStopSpec c T i a).toList.filter isFuel = [] := by
  cases h : restStopSpec c T i a with
  | none => rfl
  | some m => simp [Option.toList, isFuel, restStopSpec_icon c T i a m h]

/-- The fuel-stop markers added by the loop from day `i` on, for the remaining
days `ps` and the distance `st.1` accumulated so far. -/
theorem forEachDay_filter_fuel (c : Coordinates) (T : ℚ) (n : Nat) :
    ∀ (ps : List DayPlan) (i : Nat) (st : ℚ × List Marker),
      (forEachDay c T n ps i st).2.filter isFuel =
        st.2.filter isFuel ++
          (List.range ps.length).flatMap (fun k =>
            match ps[k]? with
            | some p =>
              (List.range (fuelStopsOf p)).filterMap
                (fuelStopSpec c T (i + k) (st.1 + ((ps.take k).map dayDistanceOf).sum)
                  (dayDistanceOf p) (fuelStopsOf p))
            | none => []) := by
  intro ps
  induction ps with
  | nil => intro i st; simp [forEachDay]
  | cons p ps ih =>
    intro i st
    rw [forEachDay, ih (i + 1), dayStep_eq]
    simp only [List.filter_append, filter_isFuel_fuelSpecs, List.append_assoc]
    have hrest : List.filter isFuel
        (if i + 1 < n then (restStopSpec c T i (st.1 + dayDistanceOf p)).toList else []) = [] := by
      split_ifs
      · exact filter_isFuel_restSpec c T i _
      · rfl
    rw [hrest, List.nil_append]
    congr 1
    rw [List.length_cons, List.range_succ_eq_map, List.flatMap_cons, List.flatMap_map]
    simp only [List.getElem?_cons_zero, List.take_zero, List.map_nil, List.sum_nil, add_zero,
      Nat.add_zero]
    congr 1
    apply List.flatMap_congr
    intro k _
    simp only [Function.comp, Nat.succ_eq_add_one, List.getElem?_cons_succ, List.take_succ_cons,
      List.map_cons, List.sum_cons]
    rw [show i + 1 + k = i + (k + 1) by omega, add_assoc]

/-- No location marker is a fuel marker. -/
theorem locationMarkers_filter_fuel (trip : Option Trip) (coordinates : Option Coordinates) :
    (locationMarkers trip coordinates).filter isFuel = [] := by
  rw [List.filter_eq_nil_iff]
  intro m hm
  rcases locationMarkers_icon trip coordinates m hm with h | h | h <;> simp [isFuel, h]

/-- C15: the fuel-stop markers in the marker list are exactly, in day order
and then stop order, the fuel stops `i = 0 .. n-1` of each day, where `n` is
the day's `fuel_stops` count (a missing count is 0 and gives none), each
computed from the fraction `(A + d * (i + 1) / (n + 1)) / T` with `A` the
cumulative distance of the preceding days, `d` the day's distance and `T` the
total distance, and placed when pickup and dropoff are known and the fraction
is strictly between 0 and 1. Consecutive stops of a day are `d / (n + 1)`
apart, and the popup of stop `i` of day index `day` is labelled
`Fuel Stop i+1 - Day day+1`. -/
theorem fuel_stops_characterised (trip : Option Trip) (c : Coordinates) (rd : RouteData) :
    (markers trip (some c) (some rd)).filter isFuel =
      (List.range (hosPlansOf rd).length).flatMap (fun day =>
        match (hosPlansOf rd)[day]? with
        | some p =>
          (List.range (fuelStopsOf p)).filterMap
            (fuelStopSpec c (totalDistanceOf rd) day
              ((((hosPlansOf rd).take day).map dayDistanceOf).sum)
              (dayDistanceOf p) (fuelStopsOf p))
        | none => []) ∧
    (∀ (day : Nat) (A d : ℚ) (n i : Nat) (m : Marker),
      fuelStopSpec c (totalDistanceOf rd) day A d n i = some m →
      m.icon = "fuel" ∧
      m.popup = "⛽ Fuel Stop " ++ toString (i + 1) ++ " - Day " ++ toString (day + 1)
        ++ "\n30-minute refueling" ∧
      ∃ pk dr, c.pickup = some pk ∧ c.dropoff = some dr ∧
        m = fuelMarker pk dr
          (JsNum.div (A + d * ((i : ℚ) + 1) / ((n : ℚ) + 1)) (totalDistanceOf rd)) i day) ∧
    (∀ p : DayPlan, p.fuel_stops = none → fuelStopsOf p = 0) ∧
    (∀ (A d T : ℚ) (n i : Nat), T ≠ 0 →
      fuelFraction A d n i T = JsNum.fin ((A + d * ((i : ℚ) + 1) / ((n : ℚ) + 1)) / T)) ∧
    (∀ (A d : ℚ) (n i : Nat),
      (A + d * (((i + 1 : Nat) : ℚ) + 1) / ((n : ℚ) + 1))
        - (A + d * ((i : ℚ) + 1) / ((n : ℚ) + 1)) = d / ((n : ℚ) + 1)) := by
  refine ⟨?_, ?_, ?_, ?_, ?_⟩
  · simp only [markers]
    rw [forEachDay_filter_fuel, locationMarkers_filter_fuel]
    simp only [List.nil_append, zero_add]
  · intro day A d n i m hm
    obtain ⟨pk, dr, hp, hd, -, rfl⟩ := fuelStopSpec_some c _ day A d n i m hm
    exact ⟨rfl, rfl, pk, dr, hp, hd, rfl⟩
  · intro p hp
    simp [fuelStopsOf, hp]
  · intro A d T n i hT
    simp [fuelFraction, JsNum.div, hT]
  · intro A d n i
    push_cast
    ring

/-- C15 on a two-day, 600-mile plan from (40, -100) to (46, -88), 300 miles a
day with two fuel stops on day 1 and one on day 2: three fuel-stop markers, at
the fractions (0 + 300*1/3)/600, (0 + 300*2/3)/600 and (300 + 300*1/2)/600,
labelled Fuel Stop 1 and 2 of Day 1 and Fuel Stop 1 of Day 2. -/
theorem fuel_stops_characterised_witness :
    (markers none (some ⟨none, some (40, -100), some (46, -88)⟩)
        (some ⟨some ⟨some 600⟩,
          some ⟨some [⟨some 300, some 2⟩, ⟨some 300, some 1⟩]⟩⟩)).filter isFuel =
      [fuelMarker (40, -100) (46, -88) (JsNum.fin (1 / 6)) 0 0,
       fuelMarker (40, -100) (46, -88) (JsNum.fin (1 / 3)) 1 0,
       fuelMarker (40, -100) (46, -88) (JsNum.fin (3 / 4)) 0 1] ∧
    (fuelMarker (40, -100) (46, -88) (JsNum.fin (1 / 3)) 1 0).popup =
      "⛽ Fuel Stop 2 - Day 1\n30-minute refueling" ∧
    (fuelMarker (40, -100) (46, -88) (JsNum.fin (3 / 4)) 0 1).popup =
      "⛽ Fuel Stop 1 - Day 2\n30-minute refueling" ∧
    (fuelMarker (40, -100) (46, -88) (JsNum.fin (3 / 4)) 0 1).position = pos (89 / 2, -91) :=
  ⟨(fuel_stops_characterised none ⟨none, some (40, -100), some (46, -88)⟩
      ⟨some ⟨some 600⟩,
        some ⟨some [⟨some 300, some 2⟩, ⟨some 300, some 1⟩]⟩⟩).1.trans
      (by
        simp [hosPlansOf, totalDistanceOf, fuelStopSpec, fuelFraction, dayDistanceOf,
          fuelStopsOf, JsNum.div, JsNum.gt, JsNum.lt, List.range, List.range.loop,
          List.filterMap_cons]
        norm_num),
    by decide, by decide,
    by simp [fuelMarker, interpolate, pos, JsNum.add, JsNum.mul]; norm_num⟩

/-- C16: for a day with distance `d > 0`, `n >= 1` fuel stops, preceding
cumulative distance `A >= 0` and total distance `T > 0`, the fuel-stop
fractions `(A + d * (i + 1) / (n + 1)) / T` are finite, strictly increasing in
the stop index `i`, and each lies strictly between the day's starting fraction
`A / T` and its end fraction `(A + d) / T`, the fraction of the day's rest stop,
and is positive; in the marker list the day's rest-stop marker nevertheless comes before the
day's fuel-stop markers. -/
theorem fuel_fractions_ordered (A d T : ℚ) (n : Nat)
    (hd : 0 < d) (hn : 1 ≤ n) (hA : 0 ≤ A) (hT : 0 < T) :
    (∀ i : Nat, fuelFraction A d n i T =
      JsNum.fin ((A + d * ((i : ℚ) + 1) / ((n : ℚ) + 1)) / T)) ∧
    JsNum.div (A + d) T = JsNum.fin ((A + d) / T) ∧
    (∀ i j : Nat, i < j → j < n →
      (A + d * ((i : ℚ) + 1) / ((n : ℚ) + 1)) / T <
        (A + d * ((j : ℚ) + 1) / ((n : ℚ) + 1)) / T) ∧
    (∀ i : Nat, i < n →
      A / T < (A + d * ((i : ℚ) + 1) / ((n : ℚ) + 1)) / T ∧
      (A + d * ((i : ℚ) + 1) / ((n : ℚ) + 1)) / T < (A + d) / T) ∧
    (∀ (c : Coordinates) (days : Nat) (p : DayPlan) (dayIndex : Nat) (st : ℚ × List Marker),
      (dayStep c T days p dayIndex st).2 =
        st.2 ++ ((if dayIndex + 1 < days then
              (restStopSpec c T dayIndex (st.1 + dayDistanceOf p)).toList else [])
          ++ (List.range (fuelStopsOf p)).filterMap
            (fuelStopSpec c T dayIndex st.1 (dayDistanceOf p) (fuelStopsOf p)))) ∧
    (∀ i : Nat, 0 < (A + d * ((i : ℚ) + 1) / ((n : ℚ) + 1)) / T) := by
  have hT' : T ≠ 0 := ne_of_gt hT
  have hn1 : (0 : ℚ) < (n : ℚ) + 1 := by positivity
  refine ⟨?_, ?_, ?_, ?_, ?_, ?_⟩
  · intro i
    simp [fuelFraction, JsNum.div, hT']
  · simp [JsNum.div, hT']
  · intro i j hij _
    apply div_lt_div_of_pos_right _ hT
    have hq : (i : ℚ) < (j : ℚ) := by exact_mod_cast hij
    have : d * ((i : ℚ) + 1) / ((n : ℚ) + 1) < d * ((j : ℚ) + 1) / ((n : ℚ) + 1) := by
      apply div_lt_div_of_pos_right _ hn1
      nlinarith
    linarith
  · intro i hi
    have hq : (i : ℚ) + 1 ≤ (n : ℚ) := by exact_mod_cast hi
    have h0 : 0 < d * ((i : ℚ) + 1) / ((n : ℚ) + 1) := by
      have : (0 : ℚ) ≤ (i : ℚ) := by positivity
      apply div_pos _ hn1
      nlinarith
    have h1 : d * ((i : ℚ) + 1) / ((n : ℚ) + 1) < d := by
      rw [div_lt_iff₀ hn1]
      nlinarith
    constructor
    · apply div_lt_div_of_pos_right _ hT
      linarith
    · apply div_lt_div_of_pos_right _ hT
      linarith
  · intro c days p dayIndex st
    rw [dayStep_eq]
  · intro i
    have h0 : 0 < d * ((i : ℚ) + 1) / ((n : ℚ) + 1) := by
      have : (0 : ℚ) ≤ (i : ℚ) := by positivity
      apply div_pos _ hn1
      nlinarith
    apply div_pos _ hT
    linarith

/-- C16 for a 300-mile day with two fuel stops after 300 miles of a 900-mile
trip: the fractions 4/9 and 5/9 lie in order between 1/3 and 2/3. -/
theorem fuel_fractions_ordered_witness :
    (300 + 300 * (((0 : Nat) : ℚ) + 1) / (((2 : Nat) : ℚ) + 1)) / 900 <
        (300 + 300 * (((1 : Nat) : ℚ) + 1) / (((2 : Nat) : ℚ) + 1)) / 900 ∧
    (300 : ℚ) / 900 < (300 + 300 * (((0 : Nat) : ℚ) + 1) / (((2 : Nat) : ℚ) + 1)) / 900 ∧
    (300 + 300 * (((1 : Nat) : ℚ) + 1) / (((2 : Nat) : ℚ) + 1)) / 900 < (300 + 300 : ℚ) / 900 :=
  match fuel_fractions_ordered 300 300 900 2 (by norm_num) (by norm_num) (by norm_num)
      (by norm_num) with
  | ⟨_, _, hinc, hbet, _, _⟩ =>
    ⟨hinc 0 1 (by decide) (by decide), (hbet 0 (by decide)).1, (hbet 1 (by decide)).2⟩

/-- A fraction `a / T` with `0 < a < T` passes the `(0, 1)` test. -/
theorem guard_div_pos (a T : ℚ) (hT : 0 < T) (h0 : 0 < a) (h1 : a < T) :
    ((JsNum.div a T).gt 0 && (JsNum.div a T).lt 1) = true := by
  have hT' : T ≠ 0 := ne_of_gt hT
  have e0 : 0 < a / T := div_pos h0 hT
  have e1 : a / T < 1 := (div_lt_one hT).mpr h1
  simp [JsNum.div, hT', JsNum.gt, JsNum.lt, e0, e1]

/-- With pickup and dropoff known, the rest stop of a cumulative distance
strictly inside the trip is placed. -/
theorem restStopSpec_placed (c : Coordinates) (pk dr : LatLng) (hp : c.pickup = some pk)
    (hd : c.dropoff = some dr) (T : ℚ) (i : Nat) (a : ℚ)
    (hT : 0 < T) (h0 : 0 < a) (h1 : a < T) :
    restStopSpec c T i a = some (restMarker pk dr (JsNum.div a T) i) := by
  simp only [restStopSpec, hp, hd, guard_div_pos a T hT h0 h1, if_true]

/-- With pickup and dropoff known, every fuel stop of a day with positive
distance that ends within the trip is placed. -/
theorem fuelStopSpec_placed (c : Coordinates) (pk dr : LatLng) (hp : c.pickup = some pk)
    (hd : c.dropoff = some dr) (T : ℚ) (day : Nat) (A d : ℚ) (n j : Nat)
    (hT : 0 < T) (hA : 0 ≤ A) (hdp : 0 < d) (hAd : A + d ≤ T) (hj : j < n) :
    fuelStopSpec c T day A d n j = some (fuelMarker pk dr (fuelFraction A d n j T) j day) := by
  have hn1 : (0 : ℚ) < (n : ℚ) + 1 := by positivity
  have hq : (j : ℚ) + 1 ≤ (n : ℚ) := by exact_mod_cast hj
  have hj0 : (0 : ℚ) ≤ (j : ℚ) := by positivity
  have h0 : 0 < d * ((j : ℚ) + 1) / ((n : ℚ) + 1) := by
    apply div_pos _ hn1
    nlinarith
  have h1 : d * ((j : ℚ) + 1) / ((n : ℚ) + 1) < d := by
    rw [div_lt_iff₀ hn1]
    nlinarith
  have hg := guard_div_pos (A + d * ((j : ℚ) + 1) / ((n : ℚ) + 1)) T hT (by linarith)
    (by linarith)
  simp only [fuelStopSpec, hp, hd]
  rw [show fuelFraction A d n j T =
    JsNum.div (A + d * ((j : ℚ) + 1) / ((n : ℚ) + 1)) T from rfl, hg, if_pos rfl]

/-- A `filterMap` that keeps every element has the length of its input. -/
theorem length_filterMap_all {α β : Type} (f : α → Option β) :
    ∀ l : List α, (∀ x ∈ l, (f x).isSome = true) → (l.filterMap f).length = l.length := by
  intro l
  induction l with
  | nil => intro _; rfl
  | cons a l ih =>
    intro h
    obtain ⟨b, hb⟩ := Option.isSome_iff_exists.mp (h a (List.mem_cons_self _ _))
    rw [List.filterMap_cons, hb]
    simp only [List.length_cons]
    rw [ih (fun x hx => h x (List.mem_cons_of_mem _ hx))]

/-- The fuel stops of the specification are not rest markers. -/
theorem filter_isRest_fuelSpecs (c : Coordinates) (T : ℚ) (i : Nat) (A d : ℚ) (fs : Nat)
    (js : List Nat) :
    (js.filterMap (fuelStopSpec c T i A d fs)).filter isRest = [] := by
  rw [List.filter_eq_nil_iff]
  intro m hm
  obtain ⟨j, -, hj⟩ := List.mem_filterMap.mp hm
  simp [isRest, fuelStopSpec_icon c T i A d fs j m hj]

/-- Stop markers are the rest markers together with the fuel markers. -/
theorem length_filter_isStop (l : List Marker) :
    (l.filter isStop).length = (l.filter isRest).length + (l.filter isFuel).length := by
  induction l with
  | nil => rfl
  | cons m l ih =>
    by_cases hr : m.icon = "rest"
    · simp [List.filter_cons, isStop, isRest, isFuel, hr, ih]
      omega
    · by_cases hf : m.icon = "fuel"
      · simp [List.filter_cons, isStop, isRest, isFuel, hf, ih]
        omega
      · simp [List.filter_cons, isStop, isRest, isFuel, hr, hf, ih]

/-- Counting the stops added by the loop when every remaining day has a
positive distance and the remaining days end exactly at the total distance. -/
theorem forEachDay_counts (c : Coordinates) (pk dr : LatLng) (hp : c.pickup = some pk)
    (hd : c.dropoff = some dr) (T : ℚ) (hT : 0 < T) (n : Nat) :
    ∀ (ps : List DayPlan) (i : Nat) (st : ℚ × List Marker), i + ps.length = n →
      (∀ p ∈ ps, 0 < dayDistanceOf p) → 0 ≤ st.1 →
      st.1 + (ps.map dayDistanceOf).sum = T →
      ((forEachDay c T n ps i st).2.filter isRest).length =
          (st.2.filter isRest).length + (ps.length - 1) ∧
        ((forEachDay c T n ps i st).2.filter isFuel).length =
          (st.2.filter isFuel).length + (ps.map fuelStopsOf).sum := by
  intro ps
  induction ps with
  | nil => intro i st _ _ _ _; simp [forEachDay]
  | cons p ps ih =>
    intro i st hlen hpos h0 hsum
    have hdp : 0 < dayDistanceOf p := hpos p (List.mem_cons_self _ _)
    have hpos' : ∀ q ∈ ps, 0 < dayDistanceOf q := fun q hq => hpos q (List.mem_cons_of_mem _ hq)
    have hnn : 0 ≤ (ps.map dayDistanceOf).sum := by
      apply List.sum_nonneg
      intro x hx
      obtain ⟨q, hq, rfl⟩ := List.mem_map.mp hx
      exact (hpos' q hq).le
    simp only [List.map_cons, List.sum_cons] at hsum
    simp only [List.length_cons] at hlen
    rw [forEachDay, dayStep_eq]
    obtain ⟨ihr, ihf⟩ := ih (i + 1)
      (st.1 + dayDistanceOf p, st.2 ++ ((if i + 1 < n then
          (restStopSpec c T i (st.1 + dayDistanceOf p)).toList else [])
        ++ (List.range (fuelStopsOf p)).filterMap
          (fuelStopSpec c T i st.1 (dayDistanceOf p) (fuelStopsOf p))))
      (by omega) hpos' (by show 0 ≤ st.1 + dayDistanceOf p; linarith)
      (by show st.1 + dayDistanceOf p + (ps.map dayDistanceOf).sum = T; linarith)
    rw [ihr, ihf]
    simp only [List.filter_append, List.length_append, filter_isRest_fuelSpecs,
      filter_isFuel_fuelSpecs, List.length_nil, add_zero, List.map_cons, List.sum_cons,
      List.length_cons]
    have hfuel : ((List.range (fuelStopsOf p)).filterMap
        (fuelStopSpec c T i st.1 (dayDistanceOf p) (fuelStopsOf p))).length = fuelStopsOf p := by
      rw [length_filterMap_all, List.length_range]
      intro j hj
      rw [fuelStopSpec_placed c pk dr hp hd T i st.1 (dayDistanceOf p) (fuelStopsOf p) j hT h0 hdp
        (by linarith) (List.mem_range.mp hj)]
      rfl
    rw [hfuel]
    rcases ps with _ | ⟨q, qs⟩
    · have hn : ¬ (i + 1 < n) := by simp only [List.length_nil] at hlen; omega
      simp [hn]
    · have hn : i + 1 < n := by simp only [List.length_cons] at hlen; omega
      have hq : 0 < dayDistanceOf q := hpos' q (List.mem_cons_self _ _)
      have hqs : 0 ≤ (qs.map dayDistanceOf).sum := by
        apply List.sum_nonneg
        intro x hx
        obtain ⟨r, hr, rfl⟩ := List.mem_map.mp hx
        exact (hpos' r (List.mem_cons_of_mem _ hr)).le
      simp only [List.map_cons, List.sum_cons] at hsum
      rw [if_pos hn, restStopSpec_placed c pk dr hp hd T i _ hT (by linarith) (by linarith)]
      simp only [Option.toList, List.filter_cons, List.filter_nil, isRest, isFuel, restMarker,
        List.length_cons]
      simp
      omega

/-- C17: when routeData and coordinates with pickup and dropoff are present,
every daily distance is strictly positive and the daily distances sum to the
total distance `T > 0`, no stop is discarded: for `n` daily plans the marker
list holds exactly `n - 1` rest-stop markers and as many fuel-stop markers as
the `fuel_stops` counts add up to. -/
theorem all_stops_placed (trip : Option Trip) (c : Coordinates) (rd : RouteData)
    (pk dr : LatLng) (hp : c.pickup = some pk) (hd : c.dropoff = some dr)
    (hpos : ∀ p ∈ hosPlansOf rd, 0 < dayDistanceOf p)
    (hsum : ((hosPlansOf rd).map dayDistanceOf).sum = totalDistanceOf rd)
    (hT : 0 < totalDistanceOf rd) :
    ((markers trip (some c) (some rd)).filter isRest).length = (hosPlansOf rd).length - 1 ∧
    ((markers trip (some c) (some rd)).filter isFuel).length =
      ((hosPlansOf rd).map fuelStopsOf).sum ∧
    ((markers trip (some c) (some rd)).filter isStop).length =
      ((hosPlansOf rd).length - 1) + ((hosPlansOf rd).map fuelStopsOf).sum := by
  have hloc_f := locationMarkers_filter_fuel trip (some c)
  have hloc_r : (locationMarkers trip (some c)).filter isRest = [] := by
    rw [List.filter_eq_nil_iff]
    intro m hm
    rcases locationMarkers_icon trip (some c) m hm with h | h | h <;> simp [isRest, h]
  obtain ⟨hr, hf⟩ := forEachDay_counts c pk dr hp hd (totalDistanceOf rd) hT
    (hosPlansOf rd).length (hosPlansOf rd) 0 (0, locationMarkers trip (some c)) (by omega) hpos
    (le_refl _) (by simpa using hsum)
  have hr' : ((markers trip (some c) (some rd)).filter isRest).length =
      (hosPlansOf rd).length - 1 := by
    simp only [markers]
    rw [hr, hloc_r]
    simp
  have hf' : ((markers trip (some c) (some rd)).filter isFuel).length =
      ((hosPlansOf rd).map fuelStopsOf).sum := by
    simp only [markers]
    rw [hf, hloc_f]
    simp
  exact ⟨hr', hf', by rw [length_filter_isStop, hr', hf']⟩

/-- C17 on a two-day, 600-mile route from (40, -100) to (42, -90) with 300
miles and one resp. no fuel stop per day: one rest stop and one fuel stop. -/
theorem all_stops_placed_witness :
    ((markers none (some ⟨none, some (40, -100), some (42, -90)⟩)
        (some ⟨some ⟨some 600⟩, some ⟨some [⟨some 300, some 1⟩, ⟨some 300, none⟩]⟩⟩)).filter
      isRest).length = 2 - 1 ∧
    ((markers none (some ⟨none, some (40, -100), some (42, -90)⟩)
        (some ⟨some ⟨some 600⟩, some ⟨some [⟨some 300, some 1⟩, ⟨some 300, none⟩]⟩⟩)).filter
      isFuel).length = 1 :=
  match all_stops_placed none ⟨none, some (40, -100), some (42, -90)⟩
      ⟨some ⟨some 600⟩, some ⟨some [⟨some 300, some 1⟩, ⟨some 300, none⟩]⟩⟩
      (40, -100) (42, -90) rfl rfl
      (by
        intro p hp
        simp only [hosPlansOf, Option.bind, Option.getD_some, List.mem_cons, List.mem_singleton,
          List.not_mem_nil, or_false] at hp
        rcases hp with rfl | rfl <;> simp [dayDistanceOf])
      (by simp [hosPlansOf, totalDistanceOf, dayDistanceOf]; norm_num)
      (by simp [totalDistanceOf]) with
  | ⟨hr, hf, _⟩ => ⟨hr, hf⟩

end MapView

/-! ## Properties of ELDLogsPage.js -/

namespace ELDLogsPage

/-- The two outcomes of the loop body for one trip: either the trip has ELD
logs and is appended with those logs (the embedded list, or else the list of a
successful dedicated response), or it has none and the list is unchanged. -/
theorem collectTrip_cases (getEld : JsId → Option EldResponse) (acc : List TripWithLogs)
    (trip : Trip) :
    (hasEldLogs getEld trip = true ∧ ∃ logs, logs ≠ [] ∧
      collectTrip getEld acc trip = acc ++ [⟨trip, ⟨logs, logs.length⟩⟩] ∧
      (trip.eld_logs = some logs ∨
        ((trip.eld_logs = none ∨ trip.eld_logs = some []) ∧
          ∃ r, getEld trip.id = some r ∧ r.success = true ∧ r.eld_logs = some logs))) ∨
    (hasEldLogs getEld trip = false ∧ collectTrip getEld acc trip = acc) := by
  unfold hasEldLogs collectTrip fetchDedicated
  rcases he : trip.eld_logs with _ | _ | ⟨x, xs⟩
  · rcases hg : getEld trip.id with _ | ⟨_ | _, _ | _ | ⟨y, ys⟩⟩ <;> simp
  · rcases hg : getEld trip.id with _ | ⟨_ | _, _ | _ | ⟨y, ys⟩⟩ <;> simp
    exact ⟨_, List.cons_ne_nil _ _, ⟨rfl, rfl⟩, Or.inr rfl⟩
  · simp

/-- The loop over the fetched trips keeps what was collected, appends exactly
the trips that have ELD logs, and every appended entry carries a non-empty log
list with its length as `total_days`. -/
theorem foldl_collectTrip (getEld : JsId → Option EldResponse) :
    ∀ (all : List Trip) (acc : List TripWithLogs),
      ((all.foldl (collectTrip getEld) acc).map TripWithLogs.trip =
        acc.map TripWithLogs.trip ++ all.filter (hasEldLogs getEld)) ∧
      (∀ t ∈ all.foldl (collectTrip getEld) acc, t ∈ acc ∨
        (t.eldLogs.daily_logs ≠ [] ∧ t.eldLogs.total_days = t.eldLogs.daily_logs.length ∧
          (t.trip.eld_logs = some t.eldLogs.daily_logs ∨
            ((t.trip.eld_logs = none ∨ t.trip.eld_logs = some []) ∧
              ∃ r, getEld t.trip.id = some r ∧ r.success = true ∧
                r.eld_logs = some t.eldLogs.daily_logs)))) := by
  intro all
  induction all with
  | nil => intro acc; exact ⟨by simp, fun t ht => Or.inl ht⟩
  | cons trip all ih =>
    intro acc
    rw [List.foldl_cons]
    obtain ⟨ih1, ih2⟩ := ih (collectTrip getEld acc trip)
    rcases collectTrip_cases getEld acc trip with ⟨hh, logs, hne, hc, hsrc⟩ | ⟨hh, hc⟩
    · constructor
      · rw [ih1, hc, List.filter_cons, hh]
        simp
      · intro t ht
        rcases ih2 t ht with h | h
        · rw [hc] at h
          rcases List.mem_append.mp h with h | h
          · exact Or.inl h
          · rw [List.mem_singleton] at h
            subst h
            exact Or.inr ⟨hne, rfl, hsrc⟩
        · exact Or.inr h
    · constructor
      · rw [ih1, hc, List.filter_cons, hh]
        simp
      · intro t ht
        rcases ih2 t ht with h | h
        · rw [hc] at h; exact Or.inl h
        · exact Or.inr h

/-- After a successful `/trips/` request the `trips` state is the list
collected by the loop, whatever trip gets selected. -/
theorem fetch_trips (data : TripsData) (getEld : JsId → Option EldResponse)
    (tripId : Option String) (st : State) :
    (fetchTripsWithEldLogs (some data) getEld tripId st).trips =
      (data.results.getD []).foldl (collectTrip getEld) [] ∧
    (fetchTripsWithEldLogs (some data) getEld tripId st).loading = false ∧
    (fetchTripsWithEldLogs (some data) getEld tripId st).error = st.error := by
  simp only [fetchTripsWithEldLogs]
  split_ifs <;> split <;> simp [selectTrip]

/-- C19: after `fetchTripsWithEldLogs` completes with an answered `/trips/`
request, the `trips` list consists, in the fetched order, of exactly the
fetched trips that have ELD logs (a non-empty embedded `eld_logs`, or otherwise
a dedicated response with `success` and a non-empty `eld_logs`; a trip whose
dedicated request fails is skipped); every listed trip carries those logs as a
non-empty `eldLogs.daily_logs` with `eldLogs.total_days` equal to its length,
so `handleTripSelect` on a listed trip always yields a defined first daily log. -/
theorem trips_with_logs_listed (data : TripsData) (getEld : JsId → Option EldResponse)
    (tripId : Option String) (st : State) :
    (fetchTripsWithEldLogs (some data) getEld tripId st).trips.map TripWithLogs.trip =
      (data.results.getD []).filter (hasEldLogs getEld) ∧
    List.Sublist ((fetchTripsWithEldLogs (some data) getEld tripId st).trips.map
      TripWithLogs.trip) (data.results.getD []) ∧
    (∀ t ∈ (fetchTripsWithEldLogs (some data) getEld tripId st).trips,
      t.eldLogs.daily_logs ≠ [] ∧
      t.eldLogs.total_days = t.eldLogs.daily_logs.length ∧
      (t.trip.eld_logs = some t.eldLogs.daily_logs ∨
        ((t.trip.eld_logs = none ∨ t.trip.eld_logs = some []) ∧
          ∃ r, getEld t.trip.id = some r ∧ r.success = true ∧
            r.eld_logs = some t.eldLogs.daily_logs)) ∧
      (∀ s : State, ∃ log, (handleTripSelect t s).selectedLog = some log ∧
        t.eldLogs.daily_logs[0]? = some log ∧
        (handleTripSelect t s).selectedTrip = some t ∧
        (handleTripSelect t s).eldLogs = some t.eldLogs)) ∧
    (∀ trip : Trip, (trip.eld_logs = none ∨ trip.eld_logs = some []) →
      getEld trip.id = none → hasEldLogs getEld trip = false) ∧
    (fetchTripsWithEldLogs (some data) getEld tripId st).loading = false := by
  obtain ⟨htrips, hload, -⟩ := fetch_trips data getEld tripId st
  obtain ⟨h1, h2⟩ := foldl_collectTrip getEld (data.results.getD []) []
  rw [htrips]
  refine ⟨by simpa using h1, ?_, ?_, ?_, hload⟩
  · rw [h1]
    simp
  · intro t ht
    rcases h2 t ht with h | ⟨hne, hlen, hsrc⟩
    · exact absurd h (List.not_mem_nil t)
    · refine ⟨hne, hlen, hsrc, ?_⟩
      intro s
      rcases hl : t.eldLogs.daily_logs with _ | ⟨log, rest⟩
      · exact absurd hl hne
      · exact ⟨log, by simp [handleTripSelect, selectTrip, hl], by simp, rfl, rfl⟩
  · intro trip he hg
    unfold hasEldLogs
    rcases he with he | he <;> simp [he, hg]

/-- C19 on two fetched trips, the first without logs and with a failing
dedicated request, the second with one embedded log: only the second is listed. -/
theorem trips_with_logs_listed_witness :
    (fetchTripsWithEldLogs
        (some ⟨some [⟨JsId.num 1, none⟩, ⟨JsId.num 2, some [⟨none, none, true⟩]⟩]⟩)
        (fun _ => none) none ⟨none, none, true, "", [], none⟩).trips.map TripWithLogs.trip =
      [⟨JsId.num 2, some [⟨none, none, true⟩]⟩] :=
  (trips_with_logs_listed
    ⟨some [⟨JsId.num 1, none⟩, ⟨JsId.num 2, some [⟨none, none, true⟩]⟩]⟩
    (fun _ => none) none ⟨none, none, true, "", [], none⟩).1.trans (by decide)

end ELDLogsPage

/-! ## Properties of handleSubmit (TripForm.js) -/

namespace TripForm

/-- C21: in every state in which `routePreview` or `eldLogs` is null,
`handleSubmit` only prevents the default form action: it sends no request to
`/save-trip-with-eld/` and does not call `onTripCreated`, sets the error to
`Please calculate route and generate ELD logs first`, leaves `form`,
`routePreview`, `eldLogs` (and `calculating`) unchanged, and ends with
`loading = false`. -/
theorem handleSubmit_rejects_unplanned (save : TripData → Option SaveResponse)
    (hasOnTripCreated : Bool) (st : State)
    (h : st.routePreview = none ∨ st.eldLogs = none) :
    (handleSubmit save hasOnTripCreated st).2 = [SubmitEffect.preventDefault] ∧
    (∀ tripData, SubmitEffect.postSaveTrip tripData ∉ (handleSubmit save hasOnTripCreated st).2) ∧
    (∀ trip, SubmitEffect.onTripCreated trip ∉ (handleSubmit save hasOnTripCreated st).2) ∧
    (handleSubmit save hasOnTripCreated st).1.error =
      "Please calculate route and generate ELD logs first" ∧
    (handleSubmit save hasOnTripCreated st).1.form = st.form ∧
    (handleSubmit save hasOnTripCreated st).1.routePreview = st.routePreview ∧
    (handleSubmit save hasOnTripCreated st).1.eldLogs = st.eldLogs ∧
    (handleSubmit save hasOnTripCreated st).1.calculating = st.calculating ∧
    (handleSubmit save hasOnTripCreated st).1.loading = false := by
  have hrun : handleSubmit save hasOnTripCreated st =
      ({ st with loading := false, error := calculateFirstMessage },
        [SubmitEffect.preventDefault]) := by
    unfold handleSubmit
    rcases hr : st.routePreview with _ | r <;> rcases he : st.eldLogs with _ | e
    · rfl
    · rfl
    · rfl
    · rcases h with h | h
      · rw [hr] at h; exact absurd h (by simp)
      · rw [he] at h; exact absurd h (by simp)
  rw [hrun]
  refine ⟨rfl, ?_, ?_, rfl, rfl, rfl, rfl, rfl, rfl⟩
  · intro tripData hm
    simp at hm
  · intro trip hm
    simp at hm

/-- C21 on a filled form whose route was never calculated, with an endpoint
that would accept the trip: nothing is sent and the error is set. -/
theorem handleSubmit_rejects_unplanned_witness :
    (handleSubmit (fun _ => some ⟨true, some ⟨1⟩, none⟩) true
        ⟨⟨"Denver", "Omaha", "Chicago", 10⟩, false, false, "", none, none⟩).2 =
      [SubmitEffect.preventDefault] ∧
    (handleSubmit (fun _ => some ⟨true, some ⟨1⟩, none⟩) true
        ⟨⟨"Denver", "Omaha", "Chicago", 10⟩, false, false, "", none, none⟩).1.error =
      "Please calculate route and generate ELD logs first" ∧
    (handleSubmit (fun _ => some ⟨true, some ⟨1⟩, none⟩) true
        ⟨⟨"Denver", "Omaha", "Chicago", 10⟩, false, false, "", none, none⟩).1.loading = false :=
  match handleSubmit_rejects_unplanned (fun _ => some ⟨true, some ⟨1⟩, none⟩) true
      ⟨⟨"Denver", "Omaha", "Chicago", 10⟩, false, false, "", none, none⟩ (Or.inl rfl) with
  | ⟨h1, _, _, h4, _, _, _, _, h9⟩ => ⟨h1, h4, h9⟩

end TripForm

/-! ## Properties of the cycle progress bar (Home.js) -/

namespace Home

/-- The bar width never decreases when more cycle hours are used. -/
theorem cycleBarWidth_mono (t₁ t₂ : Trip) (h : t₁.current_cycle_used ≤ t₂.current_cycle_used) :
    cycleBarWidth t₁ ≤ cycleBarWidth t₂ := by
  unfold cycleBarWidth
  apply min_le_min _ (le_refl _)
  have : t₁.current_cycle_used / 70 ≤ t₂.current_cycle_used / 70 :=
    div_le_div_of_nonneg_right h (by norm_num)
  linarith

/-- C22: for every trip with `current_cycle_used >= 0` the width of the cycle
progress bar is `min(current_cycle_used / 70 * 100, 100)` percent; it lies in
`[0, 100]`, never exceeds 100 also when more than 70 hours are used, equals 100
exactly when `current_cycle_used >= 70`, and is monotonically non-decreasing in
`current_cycle_used`. -/
theorem cycleBarWidth_spec (trip : Trip) (h : 0 ≤ trip.current_cycle_used) :
    cycleBarWidth trip = min (trip.current_cycle_used / 70 * 100) 100 ∧
    0 ≤ cycleBarWidth trip ∧ cycleBarWidth trip ≤ 100 ∧
    (70 < trip.current_cycle_used → cycleBarWidth trip = 100) ∧
    (cycleBarWidth trip = 100 ↔ 70 ≤ trip.current_cycle_used) ∧
    (trip.current_cycle_used < 70 → cycleBarWidth trip = trip.current_cycle_used / 70 * 100) ∧
    (∀ other : Trip, trip.current_cycle_used ≤ other.current_cycle_used →
      cycleBarWidth trip ≤ cycleBarWidth other) := by
  have hiff : trip.current_cycle_used / 70 * 100 ≥ 100 ↔ 70 ≤ trip.current_cycle_used := by
    constructor
    · intro hh
      by_contra hc
      push_neg at hc
      have : trip.current_cycle_used / 70 * 100 < 100 := by
        rw [div_mul_eq_mul_div, div_lt_iff₀ (by norm_num)]
        linarith
      linarith
    · intro hh
      rw [ge_iff_le, div_mul_eq_mul_div, le_div_iff₀ (by norm_num)]
      linarith
  have hnn : 0 ≤ trip.current_cycle_used / 70 * 100 := by positivity
  refine ⟨rfl, ?_, ?_, ?_, ?_, ?_, fun other ho => cycleBarWidth_mono trip other ho⟩
  · exact le_min hnn (by norm_num)
  · exact min_le_right _ _
  · intro h70
    exact min_eq_right (hiff.mpr h70.le)
  · unfold cycleBarWidth
    constructor
    · intro hw
      apply hiff.mp
      by_contra hc
      push_neg at hc
      rw [min_eq_left hc.le] at hw
      linarith
    · intro h70
      exact min_eq_right (hiff.mpr h70)
  · intro hlt
    unfold cycleBarWidth
    apply min_eq_left
    by_contra hc
    push_neg at hc
    have := hiff.mp hc.le
    linarith

/-- C22 on a trip with 84 cycle hours used: the bar is capped at 100 percent. -/
theorem cycleBarWidth_spec_witness : cycleBarWidth ⟨84⟩ = 100 :=
  (cycleBarWidth_spec ⟨84⟩ (by norm_num)).2.2.2.1 (by norm_num)

end Home

end Spotter
